import Mathlib

/-!
# Protection callbacks of the dual buck converter (`buck_protection.h`)

Shallow embedding of `fault_processing`, `buck1_pre_process_callback` and
`buck2_pre_process_callback`.

* The C globals are the fields of `Vars`; a `State` pairs them with the log of
  the hardware commands issued so far (oldest first).
* `float32_t` values are modelled as exact rationals.
* `buck1_enable_protection` / `buck2_enable_protection` are `uint32_t` in the
  source and are compared with `true` (the integer 1); they are natural numbers
  here.
* The limit macros (`BUCK1_Vin_MIN`, ...) come from a generated header that is
  not part of the source file; they are the fields of `Limits`.
* What a callback reads from the hardware (the ADC result registers and
  `BUCKi.ctx->targ`) is an explicit argument.
-/

namespace BuckProtection

/-! ## Data model -/

/-- The buck converter states, `enum Ifx_buck_states`. -/
inductive Ifx_buck_states where
  | Ifx_BUCK_STATE_IDLE
  | Ifx_BUCK_STATE_RUN
  | Ifx_BUCK_STATE_TEST
  | Ifx_BUCK_STATE_FAULT
  deriving DecidableEq

open Ifx_buck_states

/-- Number of samples for averaging, `AVERAGING_SAMPLES (8U)`. -/
def AVERAGING_SAMPLES : Nat := 8

/-- Counter value that switches the run LED off, `CLR_LED (0)`. -/
def CLR_LED : Nat := 0

/-- The value of the C constant `true`. -/
def c_true : Nat := 1

/-- The value of the C constant `false`. -/
def c_false : Nat := 0

/-- The hardware commands `fault_processing` issues, one constructor per call
in the source (the fixed peripheral arguments are part of the constructor). -/
inductive Cmd where
  /-- The call `BUCK1_disable()`. -/
  | BUCK1_disable
  /-- The call `BUCK2_disable()`. -/
  | BUCK2_disable
  /-- The call `Cy_TCPWM_TriggerStopOrKill_Single(PWM_LOAD_HW, PWM_LOAD_NUM)`. -/
  | Cy_TCPWM_TriggerStopOrKill_Single
  /-- The call `Cy_GPIO_Clr(FAULT_LED_PORT, FAULT_LED_NUM)`: fault LED on. -/
  | Cy_GPIO_Clr
  /-- The call `Cy_TCPWM_PWM_SetCompare0Val(PWM_ACT_LED_HW, PWM_ACT_LED_NUM, val)`. -/
  | Cy_TCPWM_PWM_SetCompare0Val (val : Nat)
  /-- The call `NVIC_EnableIRQ(button_press_intr_config.intrSrc)`. -/
  | NVIC_EnableIRQ
  deriving DecidableEq

/-- The global variables of `buck_protection.h`. -/
structure Vars where
  buck1_vout_adc_res : ℚ
  buck1_iout_adc_res : ℚ
  buck1_temp_adc_res : ℚ
  vin_adc_res : ℚ
  buck1_vout_avg : ℚ
  buck1_iout_avg : ℚ
  buck1_temp_avg : ℚ
  vin_avg : ℚ
  buck1_enable_protection : Nat
  buck2_vout_adc_res : ℚ
  buck2_iout_adc_res : ℚ
  buck2_temp_adc_res : ℚ
  buck2_vout_avg : ℚ
  buck2_iout_avg : ℚ
  buck2_temp_avg : ℚ
  buck2_enable_protection : Nat
  buck_state : Ifx_buck_states
  deriving DecidableEq

/-- Program state: the globals and the log of commands issued so far. -/
structure State where
  vars : Vars
  log : List Cmd
  deriving DecidableEq

/-- The limit macros of the generated configuration header. -/
structure Limits where
  BUCK1_Vin_MIN : ℚ
  BUCK1_Vin_MAX : ℚ
  BUCK1_Iout_MAX : ℚ
  BUCK1_Temp_MAX : ℚ
  BUCK1_Vout_MIN : ℚ
  BUCK1_Vout_MAX : ℚ
  BUCK2_Iout_MAX : ℚ
  BUCK2_Temp_MAX : ℚ
  BUCK2_Vout_MIN : ℚ
  BUCK2_Vout_MAX : ℚ

/-- What `buck1_pre_process_callback` reads from outside in one call. -/
structure Buck1Read where
  BUCK1_Vout_get_result : ℚ
  BUCK1_Vin_get_result : ℚ
  BUCK1_Iout_get_result : ℚ
  BUCK1_Temp_get_result : ℚ
  /-- The value of `BUCK1.ctx->targ`. -/
  BUCK1_targ : ℚ

/-- What `buck2_pre_process_callback` reads from outside in one call. -/
structure Buck2Read where
  BUCK2_Vout_get_result : ℚ
  BUCK2_Iout_get_result : ℚ
  BUCK2_Temp_get_result : ℚ
  /-- The value of `BUCK2.ctx->targ`. -/
  BUCK2_targ : ℚ

/-! ## `fault_processing` -/

/-- The statements of the body of `fault_processing`: a call of a hardware
command or the assignment to `buck_state`. -/
inductive Stmt where
  | call (c : Cmd)
  | assign_buck_state (v : Ifx_buck_states)
  deriving DecidableEq

/-- Effect of one statement: a call appends its command to the log, the
assignment writes `buck_state`. -/
def Stmt.run : Stmt → State → State
  | Stmt.call c, s => { s with log := s.log ++ [c] }
  | Stmt.assign_buck_state v, s => { s with vars := { s.vars with buck_state := v } }

/-- Runs a list of statements from left to right. -/
def exec (body : List Stmt) (s : State) : State :=
  body.foldl (fun st stmt => stmt.run st) s

/-- Body of `fault_processing`, statement by statement (source lines 118-134). -/
def fault_processing_body : List Stmt :=
  [ Stmt.call Cmd.BUCK1_disable,
    Stmt.call Cmd.BUCK2_disable,
    Stmt.call Cmd.Cy_TCPWM_TriggerStopOrKill_Single,
    Stmt.call Cmd.Cy_GPIO_Clr,
    Stmt.call (Cmd.Cy_TCPWM_PWM_SetCompare0Val CLR_LED),
    Stmt.call Cmd.NVIC_EnableIRQ,
    Stmt.assign_buck_state Ifx_BUCK_STATE_FAULT ]

/-- The function `fault_processing`. -/
def fault_processing (s : State) : State :=
  exec fault_processing_body s

/-! ## The callbacks -/

/-- The moving-average expression `avg - ((avg - x) / AVERAGING_SAMPLES)` that
the callbacks apply to each averaged variable. -/
def moving_average (avg x : ℚ) : ℚ :=
  avg - ((avg - x) / (AVERAGING_SAMPLES : ℚ))

/-- Lines 154-157: read the ADC result registers of buck1. -/
def buck1_read (r : Buck1Read) (s : State) : State :=
  { s with vars := { s.vars with
      buck1_vout_adc_res := r.BUCK1_Vout_get_result,
      vin_adc_res := r.BUCK1_Vin_get_result,
      buck1_iout_adc_res := r.BUCK1_Iout_get_result,
      buck1_temp_adc_res := r.BUCK1_Temp_get_result } }

/-- Lines 160-163: moving average of the four buck1 quantities. -/
def buck1_average (s : State) : State :=
  { s with vars := { s.vars with
      buck1_vout_avg := moving_average s.vars.buck1_vout_avg s.vars.buck1_vout_adc_res,
      buck1_iout_avg := moving_average s.vars.buck1_iout_avg s.vars.buck1_iout_adc_res,
      buck1_temp_avg := moving_average s.vars.buck1_temp_avg s.vars.buck1_temp_adc_res,
      vin_avg := moving_average s.vars.vin_avg s.vars.vin_adc_res } }

/-- Lines 166-172: input voltage, output current and temperature range check. -/
def buck1_check_range (L : Limits) (s : State) : State :=
  if s.vars.vin_avg < L.BUCK1_Vin_MIN ∨ s.vars.vin_avg > L.BUCK1_Vin_MAX ∨
      s.vars.buck1_iout_avg > L.BUCK1_Iout_MAX ∨
      s.vars.buck1_temp_avg > L.BUCK1_Temp_MAX then
    fault_processing s
  else s

/-- Lines 175-188: output voltage protection, or turning it on. -/
def buck1_check_vout (L : Limits) (r : Buck1Read) (s : State) : State :=
  if s.vars.buck1_enable_protection = c_true then
    if s.vars.buck1_vout_avg < L.BUCK1_Vout_MIN ∨ s.vars.buck1_vout_avg > L.BUCK1_Vout_MAX then
      fault_processing s
    else s
  else if s.vars.buck1_vout_avg > r.BUCK1_targ then
    { s with vars := { s.vars with buck1_enable_protection := c_true } }
  else s

/-- The function `buck1_pre_process_callback`. -/
def buck1_pre_process_callback (L : Limits) (r : Buck1Read) (s : State) : State :=
  buck1_check_vout L r (buck1_check_range L (buck1_average (buck1_read r s)))

/-- Lines 208-210: read the ADC result registers of buck2. -/
def buck2_read (r : Buck2Read) (s : State) : State :=
  { s with vars := { s.vars with
      buck2_vout_adc_res := r.BUCK2_Vout_get_result,
      buck2_iout_adc_res := r.BUCK2_Iout_get_result,
      buck2_temp_adc_res := r.BUCK2_Temp_get_result } }

/-- Lines 213-215: moving average of the three buck2 quantities. -/
def buck2_average (s : State) : State :=
  { s with vars := { s.vars with
      buck2_vout_avg := moving_average s.vars.buck2_vout_avg s.vars.buck2_vout_adc_res,
      buck2_iout_avg := moving_average s.vars.buck2_iout_avg s.vars.buck2_iout_adc_res,
      buck2_temp_avg := moving_average s.vars.buck2_temp_avg s.vars.buck2_temp_adc_res } }

/-- Lines 218-223: output current and temperature range check. -/
def buck2_check_range (L : Limits) (s : State) : State :=
  if s.vars.buck2_iout_avg > L.BUCK2_Iout_MAX ∨
      s.vars.buck2_temp_avg > L.BUCK2_Temp_MAX then
    fault_processing s
  else s

/-- Lines 226-239: output voltage protection, or turning it on. -/
def buck2_check_vout (L : Limits) (r : Buck2Read) (s : State) : State :=
  if s.vars.buck2_enable_protection = c_true then
    if s.vars.buck2_vout_avg < L.BUCK2_Vout_MIN ∨ s.vars.buck2_vout_avg > L.BUCK2_Vout_MAX then
      fault_processing s
    else s
  else if s.vars.buck2_vout_avg > r.BUCK2_targ then
    { s with vars := { s.vars with buck2_enable_protection := c_true } }
  else s

/-- The function `buck2_pre_process_callback`. -/
def buck2_pre_process_callback (L : Limits) (r : Buck2Read) (s : State) : State :=
  buck2_check_vout L r (buck2_check_range L (buck2_average (buck2_read r s)))

/-! ## Sequences of operations -/

/-- One invocation of one of the three functions, with what it reads. -/
inductive Op where
  | fault
  | buck1 (r : Buck1Read)
  | buck2 (r : Buck2Read)

/-- Effect of one operation. -/
def Op.apply (L : Limits) : Op → State → State
  | Op.fault, s => fault_processing s
  | Op.buck1 r, s => buck1_pre_process_callback L r s
  | Op.buck2 r, s => buck2_pre_process_callback L r s

/-- Runs a finite sequence of operations from left to right. -/
def run (L : Limits) (ops : List Op) (s : State) : State :=
  ops.foldl (fun st o => o.apply L st) s

/-- The six commands of the shutdown sequence, in the order of the source. -/
def shutdown_sequence : List Cmd :=
  [ Cmd.BUCK1_disable, Cmd.BUCK2_disable, Cmd.Cy_TCPWM_TriggerStopOrKill_Single,
    Cmd.Cy_GPIO_Clr, Cmd.Cy_TCPWM_PWM_SetCompare0Val CLR_LED, Cmd.NVIC_EnableIRQ ]

/-- The average after `k` consecutive moving-average updates with the same
raw value `x`, starting from `avg`. -/
def avg_after (x : ℚ) : Nat → ℚ → ℚ
  | 0, avg => avg
  | k + 1, avg => moving_average (avg_after x k avg) x

/-- The states a run passes through: the starting state, then the state after
each operation. -/
def states (L : Limits) : List Op → State → List State
  | [], s => [s]
  | o :: ops, s => s :: states L ops (o.apply L s)

/-- Number of steps of a latch history that go from a value other than `true`
to `true`. -/
def rises : List Nat → Nat
  | a :: b :: l => (if a ≠ c_true ∧ b = c_true then 1 else 0) + rises (b :: l)
  | _ => 0

/-- Number of steps of a latch history that go from `true` to another value. -/
def falls : List Nat → Nat
  | a :: b :: l => (if a = c_true ∧ b ≠ c_true then 1 else 0) + falls (b :: l)
  | _ => 0

/-! ## Readings within their limits -/

/-- The input-voltage average at entry and the raw input voltage read are both
inside `[BUCK1_Vin_MIN, BUCK1_Vin_MAX]`. -/
def vin_within (L : Limits) (r : Buck1Read) (s : State) : Prop :=
  (L.BUCK1_Vin_MIN ≤ s.vars.vin_avg ∧ s.vars.vin_avg ≤ L.BUCK1_Vin_MAX) ∧
  (L.BUCK1_Vin_MIN ≤ r.BUCK1_Vin_get_result ∧ r.BUCK1_Vin_get_result ≤ L.BUCK1_Vin_MAX)

/-- The buck1 current average at entry and the raw current read are both at
most `BUCK1_Iout_MAX`. -/
def buck1_iout_within (L : Limits) (r : Buck1Read) (s : State) : Prop :=
  s.vars.buck1_iout_avg ≤ L.BUCK1_Iout_MAX ∧ r.BUCK1_Iout_get_result ≤ L.BUCK1_Iout_MAX

/-- The buck1 temperature average at entry and the raw temperature read are
both at most `BUCK1_Temp_MAX`. -/
def buck1_temp_within (L : Limits) (r : Buck1Read) (s : State) : Prop :=
  s.vars.buck1_temp_avg ≤ L.BUCK1_Temp_MAX ∧ r.BUCK1_Temp_get_result ≤ L.BUCK1_Temp_MAX

/-- The buck1 output-voltage average at entry and the raw output voltage read
are both inside `[BUCK1_Vout_MIN, BUCK1_Vout_MAX]`. -/
def buck1_vout_within (L : Limits) (r : Buck1Read) (s : State) : Prop :=
  (L.BUCK1_Vout_MIN ≤ s.vars.buck1_vout_avg ∧ s.vars.buck1_vout_avg ≤ L.BUCK1_Vout_MAX) ∧
  (L.BUCK1_Vout_MIN ≤ r.BUCK1_Vout_get_result ∧ r.BUCK1_Vout_get_result ≤ L.BUCK1_Vout_MAX)

/-- The buck2 current average at entry and the raw current read are both at
most `BUCK2_Iout_MAX`. -/
def buck2_iout_within (L : Limits) (r : Buck2Read) (s : State) : Prop :=
  s.vars.buck2_iout_avg ≤ L.BUCK2_Iout_MAX ∧ r.BUCK2_Iout_get_result ≤ L.BUCK2_Iout_MAX

/-- The buck2 temperature average at entry and the raw temperature read are
both at most `BUCK2_Temp_MAX`. -/
def buck2_temp_within (L : Limits) (r : Buck2Read) (s : State) : Prop :=
  s.vars.buck2_temp_avg ≤ L.BUCK2_Temp_MAX ∧ r.BUCK2_Temp_get_result ≤ L.BUCK2_Temp_MAX

/-- The buck2 output-voltage average at entry and the raw output voltage read
are both inside `[BUCK2_Vout_MIN, BUCK2_Vout_MAX]`. -/
def buck2_vout_within (L : Limits) (r : Buck2Read) (s : State) : Prop :=
  (L.BUCK2_Vout_MIN ≤ s.vars.buck2_vout_avg ∧ s.vars.buck2_vout_avg ≤ L.BUCK2_Vout_MAX) ∧
  (L.BUCK2_Vout_MIN ≤ r.BUCK2_Vout_get_result ∧ r.BUCK2_Vout_get_result ≤ L.BUCK2_Vout_MAX)

instance (L : Limits) (r : Buck1Read) (s : State) : Decidable (vin_within L r s) := by
  unfold vin_within; infer_instance

instance (L : Limits) (r : Buck1Read) (s : State) : Decidable (buck1_iout_within L r s) := by
  unfold buck1_iout_within; infer_instance

instance (L : Limits) (r : Buck1Read) (s : State) : Decidable (buck1_temp_within L r s) := by
  unfold buck1_temp_within; infer_instance

instance (L : Limits) (r : Buck1Read) (s : State) : Decidable (buck1_vout_within L r s) := by
  unfold buck1_vout_within; infer_instance

instance (L : Limits) (r : Buck2Read) (s : State) : Decidable (buck2_iout_within L r s) := by
  unfold buck2_iout_within; infer_instance

instance (L : Limits) (r : Buck2Read) (s : State) : Decidable (buck2_temp_within L r s) := by
  unfold buck2_temp_within; infer_instance

instance (L : Limits) (r : Buck2Read) (s : State) : Decidable (buck2_vout_within L r s) := by
  unfold buck2_vout_within; infer_instance

/-! ## Test data -/

/-- Limits used in the concrete instances. -/
def L0 : Limits :=
  { BUCK1_Vin_MIN := 1500, BUCK1_Vin_MAX := 2300, BUCK1_Iout_MAX := 5,
    BUCK1_Temp_MAX := 100, BUCK1_Vout_MIN := 190, BUCK1_Vout_MAX := 210,
    BUCK2_Iout_MAX := 5, BUCK2_Temp_MAX := 100, BUCK2_Vout_MIN := 190,
    BUCK2_Vout_MAX := 210 }

/-- A nominal state: every average inside its limits of `L0`, latches off. -/
def s0 : State :=
  { vars :=
      { buck1_vout_adc_res := 0, buck1_iout_adc_res := 0, buck1_temp_adc_res := 0,
        vin_adc_res := 0, buck1_vout_avg := 200, buck1_iout_avg := 1,
        buck1_temp_avg := 40, vin_avg := 1906, buck1_enable_protection := 0,
        buck2_vout_adc_res := 0, buck2_iout_adc_res := 0, buck2_temp_adc_res := 0,
        buck2_vout_avg := 200, buck2_iout_avg := 1, buck2_temp_avg := 40,
        buck2_enable_protection := 0, buck_state := Ifx_BUCK_STATE_RUN },
    log := [] }

/-- Nominal readings for buck1 under `L0`. -/
def r1 : Buck1Read :=
  { BUCK1_Vout_get_result := 200, BUCK1_Vin_get_result := 1906,
    BUCK1_Iout_get_result := 1, BUCK1_Temp_get_result := 40, BUCK1_targ := 195 }

/-- Nominal readings for buck2 under `L0`. -/
def r2 : Buck2Read :=
  { BUCK2_Vout_get_result := 200, BUCK2_Iout_get_result := 1,
    BUCK2_Temp_get_result := 40, BUCK2_targ := 195 }

/-- The state `s0` with both latches on. -/
def s0_armed : State :=
  { s0 with vars := { s0.vars with buck1_enable_protection := c_true,
                                   buck2_enable_protection := c_true } }

/-- The state `s0` with both current averages at 0. -/
def s0_zero_current : State :=
  { s0 with vars := { s0.vars with buck1_iout_avg := 0, buck2_iout_avg := 0 } }

/-- The state `s0` with both output-voltage averages at 0. -/
def s0_zero_vout : State :=
  { s0 with vars := { s0.vars with buck1_vout_avg := 0, buck2_vout_avg := 0 } }

/-! ## Basic facts about `fault_processing` -/

theorem fault_processing_vars (s : State) :
    (fault_processing s).vars = { s.vars with buck_state := Ifx_BUCK_STATE_FAULT } := rfl

theorem fault_processing_log (s : State) :
    (fault_processing s).log = s.log ++ shutdown_sequence := by
  simp [fault_processing, exec, fault_processing_body, Stmt.run, shutdown_sequence]

theorem fault_processing_state (s : State) :
    (fault_processing s).vars.buck_state = Ifx_BUCK_STATE_FAULT := rfl

/-! ## Closed forms of the callbacks -/

/-- The averages `buck1_pre_process_callback` leaves behind. -/
theorem buck1_callback_avgs (L : Limits) (r : Buck1Read) (s : State) :
    (buck1_pre_process_callback L r s).vars.buck1_vout_avg =
        moving_average s.vars.buck1_vout_avg r.BUCK1_Vout_get_result ∧
    (buck1_pre_process_callback L r s).vars.buck1_iout_avg =
        moving_average s.vars.buck1_iout_avg r.BUCK1_Iout_get_result ∧
    (buck1_pre_process_callback L r s).vars.buck1_temp_avg =
        moving_average s.vars.buck1_temp_avg r.BUCK1_Temp_get_result ∧
    (buck1_pre_process_callback L r s).vars.vin_avg =
        moving_average s.vars.vin_avg r.BUCK1_Vin_get_result := by
  simp only [buck1_pre_process_callback, buck1_check_vout, buck1_check_range,
    buck1_average, buck1_read]
  split_ifs <;> exact ⟨rfl, rfl, rfl, rfl⟩

/-- The state and the log after `buck1_pre_process_callback`, by the two
conditions `R` and `V` that call `fault_processing`. -/
theorem buck1_callback_effect_aux (L : Limits) (r : Buck1Read) (s : State)
    (R V : Prop) [Decidable R] [Decidable V]
    (hR : R ↔
      (moving_average s.vars.vin_avg r.BUCK1_Vin_get_result < L.BUCK1_Vin_MIN ∨
        moving_average s.vars.vin_avg r.BUCK1_Vin_get_result > L.BUCK1_Vin_MAX ∨
        moving_average s.vars.buck1_iout_avg r.BUCK1_Iout_get_result > L.BUCK1_Iout_MAX ∨
        moving_average s.vars.buck1_temp_avg r.BUCK1_Temp_get_result > L.BUCK1_Temp_MAX))
    (hV : V ↔
      (s.vars.buck1_enable_protection = c_true ∧
        (moving_average s.vars.buck1_vout_avg r.BUCK1_Vout_get_result < L.BUCK1_Vout_MIN ∨
          moving_average s.vars.buck1_vout_avg r.BUCK1_Vout_get_result > L.BUCK1_Vout_MAX))) :
    (buck1_pre_process_callback L r s).vars.buck_state =
        (if R ∨ V then Ifx_BUCK_STATE_FAULT else s.vars.buck_state) ∧
    (buck1_pre_process_callback L r s).log =
        s.log ++ (if R then shutdown_sequence else []) ++
          (if V then shutdown_sequence else []) := by
  simp only [buck1_pre_process_callback, buck1_check_vout, buck1_check_range,
    buck1_average, buck1_read]
  split_ifs with h1 h2 h3 h4 h5 h6 h7 <;>
    simp only [fault_processing_vars, fault_processing_log] at * <;>
    simp_all

/-- The state and the log after `buck1_pre_process_callback`, by the two
conditions that call `fault_processing`, read on the updated averages. -/
theorem buck1_callback_effect (L : Limits) (r : Buck1Read) (s : State) :
    (buck1_pre_process_callback L r s).vars.buck_state =
        (if ((buck1_pre_process_callback L r s).vars.vin_avg < L.BUCK1_Vin_MIN ∨
              (buck1_pre_process_callback L r s).vars.vin_avg > L.BUCK1_Vin_MAX ∨
              (buck1_pre_process_callback L r s).vars.buck1_iout_avg > L.BUCK1_Iout_MAX ∨
              (buck1_pre_process_callback L r s).vars.buck1_temp_avg > L.BUCK1_Temp_MAX) ∨
            (s.vars.buck1_enable_protection = c_true ∧
              ((buck1_pre_process_callback L r s).vars.buck1_vout_avg < L.BUCK1_Vout_MIN ∨
                (buck1_pre_process_callback L r s).vars.buck1_vout_avg > L.BUCK1_Vout_MAX))
          then Ifx_BUCK_STATE_FAULT else s.vars.buck_state) ∧
    (buck1_pre_process_callback L r s).log =
        s.log ++
          (if ((buck1_pre_process_callback L r s).vars.vin_avg < L.BUCK1_Vin_MIN ∨
              (buck1_pre_process_callback L r s).vars.vin_avg > L.BUCK1_Vin_MAX ∨
              (buck1_pre_process_callback L r s).vars.buck1_iout_avg > L.BUCK1_Iout_MAX ∨
              (buck1_pre_process_callback L r s).vars.buck1_temp_avg > L.BUCK1_Temp_MAX)
            then shutdown_sequence else []) ++
          (if (s.vars.buck1_enable_protection = c_true ∧
              ((buck1_pre_process_callback L r s).vars.buck1_vout_avg < L.BUCK1_Vout_MIN ∨
                (buck1_pre_process_callback L r s).vars.buck1_vout_avg > L.BUCK1_Vout_MAX))
            then shutdown_sequence else []) := by
  obtain ⟨a1, a2, a3, a4⟩ := buck1_callback_avgs L r s
  rw [a1, a2, a3, a4]
  exact buck1_callback_effect_aux L r s _ _ Iff.rfl Iff.rfl

/-- The averages `buck2_pre_process_callback` leaves behind. -/
theorem buck2_callback_avgs (L : Limits) (r : Buck2Read) (s : State) :
    (buck2_pre_process_callback L r s).vars.buck2_vout_avg =
        moving_average s.vars.buck2_vout_avg r.BUCK2_Vout_get_result ∧
    (buck2_pre_process_callback L r s).vars.buck2_iout_avg =
        moving_average s.vars.buck2_iout_avg r.BUCK2_Iout_get_result ∧
    (buck2_pre_process_callback L r s).vars.buck2_temp_avg =
        moving_average s.vars.buck2_temp_avg r.BUCK2_Temp_get_result := by
  simp only [buck2_pre_process_callback, buck2_check_vout, buck2_check_range,
    buck2_average, buck2_read]
  split_ifs <;> exact ⟨rfl, rfl, rfl⟩

/-- The state and the log after `buck2_pre_process_callback`, by the two
conditions `R` and `V` that call `fault_processing`. -/
theorem buck2_callback_effect_aux (L : Limits) (r : Buck2Read) (s : State)
    (R V : Prop) [Decidable R] [Decidable V]
    (hR : R ↔
      (moving_average s.vars.buck2_iout_avg r.BUCK2_Iout_get_result > L.BUCK2_Iout_MAX ∨
        moving_average s.vars.buck2_temp_avg r.BUCK2_Temp_get_result > L.BUCK2_Temp_MAX))
    (hV : V ↔
      (s.vars.buck2_enable_protection = c_true ∧
        (moving_average s.vars.buck2_vout_avg r.BUCK2_Vout_get_result < L.BUCK2_Vout_MIN ∨
          moving_average s.vars.buck2_vout_avg r.BUCK2_Vout_get_result > L.BUCK2_Vout_MAX))) :
    (buck2_pre_process_callback L r s).vars.buck_state =
        (if R ∨ V then Ifx_BUCK_STATE_FAULT else s.vars.buck_state) ∧
    (buck2_pre_process_callback L r s).log =
        s.log ++ (if R then shutdown_sequence else []) ++
          (if V then shutdown_sequence else []) := by
  simp only [buck2_pre_process_callback, buck2_check_vout, buck2_check_range,
    buck2_average, buck2_read]
  split_ifs with h1 h2 h3 h4 h5 h6 h7 <;>
    simp only [fault_processing_vars, fault_processing_log] at * <;>
    simp_all

/-- The state and the log after `buck2_pre_process_callback`, by the two
conditions that call `fault_processing`, read on the updated averages. -/
theorem buck2_callback_effect (L : Limits) (r : Buck2Read) (s : State) :
    (buck2_pre_process_callback L r s).vars.buck_state =
        (if ((buck2_pre_process_callback L r s).vars.buck2_iout_avg > L.BUCK2_Iout_MAX ∨
              (buck2_pre_process_callback L r s).vars.buck2_temp_avg > L.BUCK2_Temp_MAX) ∨
            (s.vars.buck2_enable_protection = c_true ∧
              ((buck2_pre_process_callback L r s).vars.buck2_vout_avg < L.BUCK2_Vout_MIN ∨
                (buck2_pre_process_callback L r s).vars.buck2_vout_avg > L.BUCK2_Vout_MAX))
          then Ifx_BUCK_STATE_FAULT else s.vars.buck_state) ∧
    (buck2_pre_process_callback L r s).log =
        s.log ++
          (if ((buck2_pre_process_callback L r s).vars.buck2_iout_avg > L.BUCK2_Iout_MAX ∨
              (buck2_pre_process_callback L r s).vars.buck2_temp_avg > L.BUCK2_Temp_MAX)
            then shutdown_sequence else []) ++
          (if (s.vars.buck2_enable_protection = c_true ∧
              ((buck2_pre_process_callback L r s).vars.buck2_vout_avg < L.BUCK2_Vout_MIN ∨
                (buck2_pre_process_callback L r s).vars.buck2_vout_avg > L.BUCK2_Vout_MAX))
            then shutdown_sequence else []) := by
  obtain ⟨a1, a2, a3⟩ := buck2_callback_avgs L r s
  rw [a1, a2, a3]
  exact buck2_callback_effect_aux L r s _ _ Iff.rfl Iff.rfl

/-- Each callback keeps `buck_state` or sets it to FAULT. -/
theorem buck1_callback_state_cases (L : Limits) (r : Buck1Read) (s : State) :
    (buck1_pre_process_callback L r s).vars.buck_state = Ifx_BUCK_STATE_FAULT ∨
    (buck1_pre_process_callback L r s).vars.buck_state = s.vars.buck_state := by
  rw [(buck1_callback_effect L r s).1]
  split_ifs
  · exact Or.inl rfl
  · exact Or.inr rfl

theorem buck2_callback_state_cases (L : Limits) (r : Buck2Read) (s : State) :
    (buck2_pre_process_callback L r s).vars.buck_state = Ifx_BUCK_STATE_FAULT ∨
    (buck2_pre_process_callback L r s).vars.buck_state = s.vars.buck_state := by
  rw [(buck2_callback_effect L r s).1]
  split_ifs
  · exact Or.inl rfl
  · exact Or.inr rfl

theorem Op.apply_fault_of_fault (L : Limits) (o : Op) (s : State)
    (h : s.vars.buck_state = Ifx_BUCK_STATE_FAULT) :
    (o.apply L s).vars.buck_state = Ifx_BUCK_STATE_FAULT := by
  cases o with
  | fault => rfl
  | buck1 r =>
    rcases buck1_callback_state_cases L r s with h1 | h1
    · exact h1
    · exact h1.trans h
  | buck2 r =>
    rcases buck2_callback_state_cases L r s with h1 | h1
    · exact h1
    · exact h1.trans h

theorem run_nil (L : Limits) (s : State) : run L [] s = s := rfl

theorem run_cons (L : Limits) (o : Op) (ops : List Op) (s : State) :
    run L (o :: ops) s = run L ops (o.apply L s) := rfl

theorem run_append (L : Limits) (ops1 ops2 : List Op) (s : State) :
    run L (ops1 ++ ops2) s = run L ops2 (run L ops1 s) := by
  simp [run, List.foldl_append]

theorem run_fault_of_fault (L : Limits) (ops : List Op) :
    ∀ s : State, s.vars.buck_state = Ifx_BUCK_STATE_FAULT →
      (run L ops s).vars.buck_state = Ifx_BUCK_STATE_FAULT := by
  induction ops with
  | nil => intro s h; exact h
  | cons o ops ih =>
    intro s h
    rw [run_cons]
    exact ih _ (Op.apply_fault_of_fault L o s h)

/-! ## The moving average under a constant input -/

theorem moving_average_sub (avg x : ℚ) :
    moving_average avg x - x = (1 - 1 / 8) * (avg - x) := by
  simp only [moving_average, AVERAGING_SAMPLES]
  push_cast
  ring

theorem avg_after_closed (x : ℚ) (k : Nat) (avg : ℚ) :
    avg_after x k avg - x = (1 - 1 / 8) ^ k * (avg - x) := by
  induction k with
  | zero => simp [avg_after]
  | succ k ih =>
    rw [avg_after, moving_average_sub, ih, pow_succ]
    ring

theorem run_replicate_succ (L : Limits) (o : Op) (k : Nat) (s : State) :
    run L (List.replicate (k + 1) o) s = o.apply L (run L (List.replicate k o) s) := by
  rw [List.replicate_succ', run_append]
  rfl

theorem run_buck1_avgs (L : Limits) (r : Buck1Read) (k : Nat) (s : State) :
    (run L (List.replicate k (Op.buck1 r)) s).vars.buck1_vout_avg =
        avg_after r.BUCK1_Vout_get_result k s.vars.buck1_vout_avg ∧
    (run L (List.replicate k (Op.buck1 r)) s).vars.buck1_iout_avg =
        avg_after r.BUCK1_Iout_get_result k s.vars.buck1_iout_avg ∧
    (run L (List.replicate k (Op.buck1 r)) s).vars.buck1_temp_avg =
        avg_after r.BUCK1_Temp_get_result k s.vars.buck1_temp_avg ∧
    (run L (List.replicate k (Op.buck1 r)) s).vars.vin_avg =
        avg_after r.BUCK1_Vin_get_result k s.vars.vin_avg := by
  induction k with
  | zero => exact ⟨rfl, rfl, rfl, rfl⟩
  | succ k ih =>
    obtain ⟨i1, i2, i3, i4⟩ := ih
    obtain ⟨a1, a2, a3, a4⟩ :=
      buck1_callback_avgs L r (run L (List.replicate k (Op.buck1 r)) s)
    rw [run_replicate_succ]
    simp only [Op.apply, avg_after]
    rw [a1, a2, a3, a4, i1, i2, i3, i4]
    exact ⟨rfl, rfl, rfl, rfl⟩

theorem run_buck2_avgs (L : Limits) (r : Buck2Read) (k : Nat) (s : State) :
    (run L (List.replicate k (Op.buck2 r)) s).vars.buck2_vout_avg =
        avg_after r.BUCK2_Vout_get_result k s.vars.buck2_vout_avg ∧
    (run L (List.replicate k (Op.buck2 r)) s).vars.buck2_iout_avg =
        avg_after r.BUCK2_Iout_get_result k s.vars.buck2_iout_avg ∧
    (run L (List.replicate k (Op.buck2 r)) s).vars.buck2_temp_avg =
        avg_after r.BUCK2_Temp_get_result k s.vars.buck2_temp_avg := by
  induction k with
  | zero => exact ⟨rfl, rfl, rfl⟩
  | succ k ih =>
    obtain ⟨i1, i2, i3⟩ := ih
    obtain ⟨a1, a2, a3⟩ :=
      buck2_callback_avgs L r (run L (List.replicate k (Op.buck2 r)) s)
    rw [run_replicate_succ]
    simp only [Op.apply, avg_after]
    rw [a1, a2, a3, i1, i2, i3]
    exact ⟨rfl, rfl, rfl⟩

theorem seven_eighths_pow_40 : ((1 : ℚ) - 1 / 8) ^ 40 ≤ 1 / 200 := by
  norm_num

/-! ## The latches -/

/-- The latches after `buck1_pre_process_callback`. -/
theorem buck1_callback_latches (L : Limits) (r : Buck1Read) (s : State) :
    (buck1_pre_process_callback L r s).vars.buck1_enable_protection =
        (if s.vars.buck1_enable_protection ≠ c_true ∧
            moving_average s.vars.buck1_vout_avg r.BUCK1_Vout_get_result > r.BUCK1_targ
          then c_true else s.vars.buck1_enable_protection) ∧
    (buck1_pre_process_callback L r s).vars.buck2_enable_protection =
        s.vars.buck2_enable_protection := by
  simp only [buck1_pre_process_callback, buck1_check_vout, buck1_check_range,
    buck1_average, buck1_read]
  split_ifs <;> simp_all [fault_processing_vars]

/-- The latches after `buck2_pre_process_callback`. -/
theorem buck2_callback_latches (L : Limits) (r : Buck2Read) (s : State) :
    (buck2_pre_process_callback L r s).vars.buck2_enable_protection =
        (if s.vars.buck2_enable_protection ≠ c_true ∧
            moving_average s.vars.buck2_vout_avg r.BUCK2_Vout_get_result > r.BUCK2_targ
          then c_true else s.vars.buck2_enable_protection) ∧
    (buck2_pre_process_callback L r s).vars.buck1_enable_protection =
        s.vars.buck1_enable_protection := by
  simp only [buck2_pre_process_callback, buck2_check_vout, buck2_check_range,
    buck2_average, buck2_read]
  split_ifs <;> simp_all [fault_processing_vars]

theorem Op.apply_latch1 (L : Limits) (o : Op) (s : State)
    (h : s.vars.buck1_enable_protection = c_true) :
    (o.apply L s).vars.buck1_enable_protection = c_true := by
  cases o with
  | fault => exact h
  | buck1 r =>
    simp only [Op.apply]
    rw [(buck1_callback_latches L r s).1]
    split_ifs
    · rfl
    · exact h
  | buck2 r =>
    simp only [Op.apply]
    rw [(buck2_callback_latches L r s).2]
    exact h

theorem Op.apply_latch2 (L : Limits) (o : Op) (s : State)
    (h : s.vars.buck2_enable_protection = c_true) :
    (o.apply L s).vars.buck2_enable_protection = c_true := by
  cases o with
  | fault => exact h
  | buck1 r =>
    simp only [Op.apply]
    rw [(buck1_callback_latches L r s).2]
    exact h
  | buck2 r =>
    simp only [Op.apply]
    rw [(buck2_callback_latches L r s).1]
    split_ifs
    · rfl
    · exact h

/-- A quantity that every operation keeps at `true` stays `true` along a run. -/
theorem run_keeps_true (L : Limits) (f : State → Nat)
    (hf : ∀ (o : Op) (s : State), f s = c_true → f (o.apply L s) = c_true)
    (ops : List Op) : ∀ s : State, f s = c_true → f (run L ops s) = c_true := by
  induction ops with
  | nil => intro s h; exact h
  | cons o ops ih =>
    intro s h
    rw [run_cons]
    exact ih _ (hf o s h)

theorem states_head (L : Limits) (ops : List Op) (s : State) :
    ∃ tl, states L ops s = s :: tl := by
  cases ops with
  | nil => exact ⟨[], rfl⟩
  | cons o ops => exact ⟨states L ops (o.apply L s), rfl⟩

/-- The entry number `i` of `states` is the state after the first `i` operations. -/
theorem states_get (L : Limits) (ops : List Op) :
    ∀ (s : State) (i : Nat), i ≤ ops.length →
      (states L ops s)[i]? = some (run L (ops.take i) s) := by
  induction ops with
  | nil =>
    intro s i hi
    have : i = 0 := by simpa using hi
    subst this
    rfl
  | cons o ops ih =>
    intro s i hi
    cases i with
    | zero => simp [states, run]
    | succ j =>
      have hj : j ≤ ops.length := by simpa using hi
      simp only [states, List.getElem?_cons_succ, List.take_succ_cons, run_cons]
      exact ih _ j hj

/-- Along a run, a quantity that every operation keeps at `true` rises at most
once and never falls. -/
theorem rises_falls_of_keeps (L : Limits) (f : State → Nat)
    (hf : ∀ (o : Op) (s : State), f s = c_true → f (o.apply L s) = c_true)
    (ops : List Op) :
    ∀ s : State, rises ((states L ops s).map f) ≤ 1 ∧
      falls ((states L ops s).map f) = 0 ∧
      (f s = c_true → rises ((states L ops s).map f) = 0) := by
  induction ops with
  | nil =>
    intro s
    simp [states, rises, falls]
  | cons o ops ih =>
    intro s
    obtain ⟨i1, i2, i3⟩ := ih (o.apply L s)
    obtain ⟨tl, htl⟩ := states_head L ops (o.apply L s)
    have e : (states L (o :: ops) s).map f
        = f s :: f (o.apply L s) :: tl.map f := by
      simp [states, htl]
    have e2 : (states L ops (o.apply L s)).map f = f (o.apply L s) :: tl.map f := by
      simp [htl]
    rw [e]
    rw [e2] at i1 i2 i3
    simp only [rises, falls]
    rw [i2]
    by_cases h1 : f s = c_true
    · have h2 := hf o s h1
      rw [i3 h2]
      simp [h1, h2]
    · by_cases h2 : f (o.apply L s) = c_true
      · rw [i3 h2]
        simp [h1, h2]
      · simpa [h1, h2] using i1

/-! ## The moving average stays between its arguments -/

theorem moving_average_eq (avg x : ℚ) :
    moving_average avg x = avg - (avg - x) / 8 := by
  simp [moving_average, AVERAGING_SAMPLES]

theorem moving_average_le (avg x M : ℚ) (h1 : avg ≤ M) (h2 : x ≤ M) :
    moving_average avg x ≤ M := by
  rw [moving_average_eq]
  linarith

theorem le_moving_average (avg x M : ℚ) (h1 : M ≤ avg) (h2 : M ≤ x) :
    M ≤ moving_average avg x := by
  rw [moving_average_eq]
  linarith

theorem avg_after_le (x M : ℚ) (k : Nat) (avg : ℚ) (h1 : avg ≤ M) (h2 : x ≤ M) :
    avg_after x k avg ≤ M := by
  induction k with
  | zero => exact h1
  | succ k ih => exact moving_average_le _ _ _ ih h2

theorem le_avg_after (x M : ℚ) (k : Nat) (avg : ℚ) (h1 : M ≤ avg) (h2 : M ≤ x) :
    M ≤ avg_after x k avg := by
  induction k with
  | zero => exact h1
  | succ k ih => exact le_moving_average _ _ _ ih h2

/-- One call of `buck1_pre_process_callback` in which no check fires leaves
`buck_state` and the log as they were. -/
theorem buck1_callback_quiet (L : Limits) (r : Buck1Read) (s : State)
    (hR : ¬ (moving_average s.vars.vin_avg r.BUCK1_Vin_get_result < L.BUCK1_Vin_MIN ∨
        moving_average s.vars.vin_avg r.BUCK1_Vin_get_result > L.BUCK1_Vin_MAX ∨
        moving_average s.vars.buck1_iout_avg r.BUCK1_Iout_get_result > L.BUCK1_Iout_MAX ∨
        moving_average s.vars.buck1_temp_avg r.BUCK1_Temp_get_result > L.BUCK1_Temp_MAX))
    (hV : ¬ (s.vars.buck1_enable_protection = c_true ∧
        (moving_average s.vars.buck1_vout_avg r.BUCK1_Vout_get_result < L.BUCK1_Vout_MIN ∨
          moving_average s.vars.buck1_vout_avg r.BUCK1_Vout_get_result > L.BUCK1_Vout_MAX))) :
    (buck1_pre_process_callback L r s).vars.buck_state = s.vars.buck_state ∧
    (buck1_pre_process_callback L r s).log = s.log := by
  obtain ⟨e1, e2⟩ := buck1_callback_effect_aux L r s _ _ Iff.rfl Iff.rfl
  rw [e1, e2, if_neg (not_or.mpr ⟨hR, hV⟩), if_neg hR, if_neg hV]
  simp

/-- One call of `buck2_pre_process_callback` in which no check fires leaves
`buck_state` and the log as they were. -/
theorem buck2_callback_quiet (L : Limits) (r : Buck2Read) (s : State)
    (hR : ¬ (moving_average s.vars.buck2_iout_avg r.BUCK2_Iout_get_result > L.BUCK2_Iout_MAX ∨
        moving_average s.vars.buck2_temp_avg r.BUCK2_Temp_get_result > L.BUCK2_Temp_MAX))
    (hV : ¬ (s.vars.buck2_enable_protection = c_true ∧
        (moving_average s.vars.buck2_vout_avg r.BUCK2_Vout_get_result < L.BUCK2_Vout_MIN ∨
          moving_average s.vars.buck2_vout_avg r.BUCK2_Vout_get_result > L.BUCK2_Vout_MAX))) :
    (buck2_pre_process_callback L r s).vars.buck_state = s.vars.buck_state ∧
    (buck2_pre_process_callback L r s).log = s.log := by
  obtain ⟨e1, e2⟩ := buck2_callback_effect_aux L r s _ _ Iff.rfl Iff.rfl
  rw [e1, e2, if_neg (not_or.mpr ⟨hR, hV⟩), if_neg hR, if_neg hV]
  simp

/-! ## Repeated calls with the same readings -/

/-- Call number `k + 1` of `buck1_pre_process_callback` in a run with constant
readings, with the two fault conditions read on the `k + 1`-fold updated
averages. -/
theorem run_buck1_step (L : Limits) (r : Buck1Read) (s : State) (k : Nat) :
    (run L (List.replicate (k + 1) (Op.buck1 r)) s).vars.buck_state =
        (if (avg_after r.BUCK1_Vin_get_result (k + 1) s.vars.vin_avg < L.BUCK1_Vin_MIN ∨
              avg_after r.BUCK1_Vin_get_result (k + 1) s.vars.vin_avg > L.BUCK1_Vin_MAX ∨
              avg_after r.BUCK1_Iout_get_result (k + 1) s.vars.buck1_iout_avg
                > L.BUCK1_Iout_MAX ∨
              avg_after r.BUCK1_Temp_get_result (k + 1) s.vars.buck1_temp_avg
                > L.BUCK1_Temp_MAX) ∨
            ((run L (List.replicate k (Op.buck1 r)) s).vars.buck1_enable_protection = c_true ∧
              (avg_after r.BUCK1_Vout_get_result (k + 1) s.vars.buck1_vout_avg
                  < L.BUCK1_Vout_MIN ∨
                avg_after r.BUCK1_Vout_get_result (k + 1) s.vars.buck1_vout_avg
                  > L.BUCK1_Vout_MAX))
          then Ifx_BUCK_STATE_FAULT
          else (run L (List.replicate k (Op.buck1 r)) s).vars.buck_state) ∧
    (run L (List.replicate (k + 1) (Op.buck1 r)) s).log =
        (run L (List.replicate k (Op.buck1 r)) s).log ++
          (if (avg_after r.BUCK1_Vin_get_result (k + 1) s.vars.vin_avg < L.BUCK1_Vin_MIN ∨
              avg_after r.BUCK1_Vin_get_result (k + 1) s.vars.vin_avg > L.BUCK1_Vin_MAX ∨
              avg_after r.BUCK1_Iout_get_result (k + 1) s.vars.buck1_iout_avg
                > L.BUCK1_Iout_MAX ∨
              avg_after r.BUCK1_Temp_get_result (k + 1) s.vars.buck1_temp_avg
                > L.BUCK1_Temp_MAX)
            then shutdown_sequence else []) ++
          (if ((run L (List.replicate k (Op.buck1 r)) s).vars.buck1_enable_protection
                = c_true ∧
              (avg_after r.BUCK1_Vout_get_result (k + 1) s.vars.buck1_vout_avg
                  < L.BUCK1_Vout_MIN ∨
                avg_after r.BUCK1_Vout_get_result (k + 1) s.vars.buck1_vout_avg
                  > L.BUCK1_Vout_MAX))
            then shutdown_sequence else []) := by
  obtain ⟨a1, a2, a3, a4⟩ := run_buck1_avgs L r k s
  rw [run_replicate_succ]
  simp only [Op.apply]
  exact buck1_callback_effect_aux L r _ _ _
    (by rw [a2, a3, a4]; exact Iff.rfl) (by rw [a1]; exact Iff.rfl)

/-- The buck1 latch after call number `k + 1` of a run with constant readings. -/
theorem run_buck1_latch (L : Limits) (r : Buck1Read) (s : State) (k : Nat) :
    (run L (List.replicate (k + 1) (Op.buck1 r)) s).vars.buck1_enable_protection =
      (if (run L (List.replicate k (Op.buck1 r)) s).vars.buck1_enable_protection ≠ c_true ∧
          avg_after r.BUCK1_Vout_get_result (k + 1) s.vars.buck1_vout_avg > r.BUCK1_targ
        then c_true
        else (run L (List.replicate k (Op.buck1 r)) s).vars.buck1_enable_protection) := by
  have h := (buck1_callback_latches L r (run L (List.replicate k (Op.buck1 r)) s)).1
  rw [(run_buck1_avgs L r k s).1] at h
  rw [run_replicate_succ]
  exact h

/-- Call number `k + 1` of `buck2_pre_process_callback` in a run with constant
readings, with the two fault conditions read on the `k + 1`-fold updated
averages. -/
theorem run_buck2_step (L : Limits) (r : Buck2Read) (s : State) (k : Nat) :
    (run L (List.replicate (k + 1) (Op.buck2 r)) s).vars.buck_state =
        (if (avg_after r.BUCK2_Iout_get_result (k + 1) s.vars.buck2_iout_avg
                > L.BUCK2_Iout_MAX ∨
              avg_after r.BUCK2_Temp_get_result (k + 1) s.vars.buck2_temp_avg
                > L.BUCK2_Temp_MAX) ∨
            ((run L (List.replicate k (Op.buck2 r)) s).vars.buck2_enable_protection = c_true ∧
              (avg_after r.BUCK2_Vout_get_result (k + 1) s.vars.buck2_vout_avg
                  < L.BUCK2_Vout_MIN ∨
                avg_after r.BUCK2_Vout_get_result (k + 1) s.vars.buck2_vout_avg
                  > L.BUCK2_Vout_MAX))
          then Ifx_BUCK_STATE_FAULT
          else (run L (List.replicate k (Op.buck2 r)) s).vars.buck_state) ∧
    (run L (List.replicate (k + 1) (Op.buck2 r)) s).log =
        (run L (List.replicate k (Op.buck2 r)) s).log ++
          (if (avg_after r.BUCK2_Iout_get_result (k + 1) s.vars.buck2_iout_avg
                > L.BUCK2_Iout_MAX ∨
              avg_after r.BUCK2_Temp_get_result (k + 1) s.vars.buck2_temp_avg
                > L.BUCK2_Temp_MAX)
            then shutdown_sequence else []) ++
          (if ((run L (List.replicate k (Op.buck2 r)) s).vars.buck2_enable_protection
                = c_true ∧
              (avg_after r.BUCK2_Vout_get_result (k + 1) s.vars.buck2_vout_avg
                  < L.BUCK2_Vout_MIN ∨
                avg_after r.BUCK2_Vout_get_result (k + 1) s.vars.buck2_vout_avg
                  > L.BUCK2_Vout_MAX))
            then shutdown_sequence else []) := by
  obtain ⟨a1, a2, a3⟩ := run_buck2_avgs L r k s
  rw [run_replicate_succ]
  simp only [Op.apply]
  exact buck2_callback_effect_aux L r _ _ _
    (by rw [a2, a3]; exact Iff.rfl) (by rw [a1]; exact Iff.rfl)

/-- The buck2 latch after call number `k + 1` of a run with constant readings. -/
theorem run_buck2_latch (L : Limits) (r : Buck2Read) (s : State) (k : Nat) :
    (run L (List.replicate (k + 1) (Op.buck2 r)) s).vars.buck2_enable_protection =
      (if (run L (List.replicate k (Op.buck2 r)) s).vars.buck2_enable_protection ≠ c_true ∧
          avg_after r.BUCK2_Vout_get_result (k + 1) s.vars.buck2_vout_avg > r.BUCK2_targ
        then c_true
        else (run L (List.replicate k (Op.buck2 r)) s).vars.buck2_enable_protection) := by
  have h := (buck2_callback_latches L r (run L (List.replicate k (Op.buck2 r)) s)).1
  rw [(run_buck2_avgs L r k s).1] at h
  rw [run_replicate_succ]
  exact h

/-- A run of buck1 calls with constant readings in which no check fires
leaves `buck_state` and the log as they were. -/
theorem run_buck1_quiet (L : Limits) (r : Buck1Read) (s : State) (k : Nat)
    (hR : ∀ j, j < k →
      ¬ (avg_after r.BUCK1_Vin_get_result (j + 1) s.vars.vin_avg < L.BUCK1_Vin_MIN ∨
        avg_after r.BUCK1_Vin_get_result (j + 1) s.vars.vin_avg > L.BUCK1_Vin_MAX ∨
        avg_after r.BUCK1_Iout_get_result (j + 1) s.vars.buck1_iout_avg > L.BUCK1_Iout_MAX ∨
        avg_after r.BUCK1_Temp_get_result (j + 1) s.vars.buck1_temp_avg > L.BUCK1_Temp_MAX))
    (hV : ∀ j, j < k →
      ¬ ((run L (List.replicate j (Op.buck1 r)) s).vars.buck1_enable_protection = c_true ∧
        (avg_after r.BUCK1_Vout_get_result (j + 1) s.vars.buck1_vout_avg < L.BUCK1_Vout_MIN ∨
          avg_after r.BUCK1_Vout_get_result (j + 1) s.vars.buck1_vout_avg
            > L.BUCK1_Vout_MAX))) :
    (run L (List.replicate k (Op.buck1 r)) s).vars.buck_state = s.vars.buck_state ∧
    (run L (List.replicate k (Op.buck1 r)) s).log = s.log := by
  induction k with
  | zero => exact ⟨rfl, rfl⟩
  | succ k ih =>
    obtain ⟨i1, i2⟩ := ih (fun j hj => hR j (Nat.lt_succ_of_lt hj))
      (fun j hj => hV j (Nat.lt_succ_of_lt hj))
    obtain ⟨e1, e2⟩ := run_buck1_step L r s k
    have h1 := hR k (Nat.lt_succ_self k)
    have h2 := hV k (Nat.lt_succ_self k)
    rw [e1, e2, if_neg (not_or.mpr ⟨h1, h2⟩), if_neg h1, if_neg h2, i1, i2]
    simp

/-- A run of buck2 calls with constant readings in which no check fires
leaves `buck_state` and the log as they were. -/
theorem run_buck2_quiet (L : Limits) (r : Buck2Read) (s : State) (k : Nat)
    (hR : ∀ j, j < k →
      ¬ (avg_after r.BUCK2_Iout_get_result (j + 1) s.vars.buck2_iout_avg > L.BUCK2_Iout_MAX ∨
        avg_after r.BUCK2_Temp_get_result (j + 1) s.vars.buck2_temp_avg > L.BUCK2_Temp_MAX))
    (hV : ∀ j, j < k →
      ¬ ((run L (List.replicate j (Op.buck2 r)) s).vars.buck2_enable_protection = c_true ∧
        (avg_after r.BUCK2_Vout_get_result (j + 1) s.vars.buck2_vout_avg < L.BUCK2_Vout_MIN ∨
          avg_after r.BUCK2_Vout_get_result (j + 1) s.vars.buck2_vout_avg
            > L.BUCK2_Vout_MAX))) :
    (run L (List.replicate k (Op.buck2 r)) s).vars.buck_state = s.vars.buck_state ∧
    (run L (List.replicate k (Op.buck2 r)) s).log = s.log := by
  induction k with
  | zero => exact ⟨rfl, rfl⟩
  | succ k ih =>
    obtain ⟨i1, i2⟩ := ih (fun j hj => hR j (Nat.lt_succ_of_lt hj))
      (fun j hj => hV j (Nat.lt_succ_of_lt hj))
    obtain ⟨e1, e2⟩ := run_buck2_step L r s k
    have h1 := hR k (Nat.lt_succ_self k)
    have h2 := hV k (Nat.lt_succ_self k)
    rw [e1, e2, if_neg (not_or.mpr ⟨h1, h2⟩), if_neg h1, if_neg h2, i1, i2]
    simp

/-- Once a run of one repeated operation is in FAULT it stays there. -/
theorem run_replicate_fault_of_le (L : Limits) (o : Op) (s : State) (m k : Nat)
    (hmk : m ≤ k)
    (h : (run L (List.replicate m o) s).vars.buck_state = Ifx_BUCK_STATE_FAULT) :
    (run L (List.replicate k o) s).vars.buck_state = Ifx_BUCK_STATE_FAULT := by
  obtain ⟨d, rfl⟩ := Nat.exists_eq_add_of_le hmk
  rw [List.replicate_add, run_append]
  exact run_fault_of_fault L _ _ h

/-! ## Powers of 7/8 -/

theorem seven_eighths_pow_anti (i j : Nat) (h : i ≤ j) :
    ((1 : ℚ) - 1 / 8) ^ j ≤ (1 - 1 / 8) ^ i :=
  pow_le_pow_of_le_one (by norm_num) (by norm_num) h

theorem avg_after_zero_closed (x : ℚ) (k : Nat) :
    avg_after x k 0 = x * (1 - (1 - 1 / 8) ^ k) := by
  have h := avg_after_closed x k 0
  linarith

/-! ## Runs in which only the current moves -/

/-- With the input voltage, temperature and output voltage within their
limits, a run of buck1 calls is quiet as long as the current average is at
most `BUCK1_Iout_MAX`. -/
theorem run_buck1_quiet_of_within (L : Limits) (r : Buck1Read) (s : State) (k : Nat)
    (hvin : vin_within L r s) (htemp : buck1_temp_within L r s)
    (hvout : buck1_vout_within L r s)
    (hi : ∀ j, j < k →
      avg_after r.BUCK1_Iout_get_result (j + 1) s.vars.buck1_iout_avg ≤ L.BUCK1_Iout_MAX) :
    (run L (List.replicate k (Op.buck1 r)) s).vars.buck_state = s.vars.buck_state ∧
    (run L (List.replicate k (Op.buck1 r)) s).log = s.log := by
  apply run_buck1_quiet
  · intro j hj
    rintro (h | h | h | h)
    · exact absurd h (not_lt.mpr (le_avg_after _ _ _ _ hvin.1.1 hvin.2.1))
    · exact absurd h (not_lt.mpr (avg_after_le _ _ _ _ hvin.1.2 hvin.2.2))
    · exact absurd h (not_lt.mpr (hi j hj))
    · exact absurd h (not_lt.mpr (avg_after_le _ _ _ _ htemp.1 htemp.2))
  · intro j _
    rintro ⟨_, h | h⟩
    · exact absurd h (not_lt.mpr (le_avg_after _ _ _ _ hvout.1.1 hvout.2.1))
    · exact absurd h (not_lt.mpr (avg_after_le _ _ _ _ hvout.1.2 hvout.2.2))

/-- With the output voltage within its limits, the buck1 call that brings the
current average above `BUCK1_Iout_MAX` sets FAULT and issues the shutdown
sequence once. -/
theorem run_buck1_current_fault (L : Limits) (r : Buck1Read) (s : State) (k : Nat)
    (hvout : buck1_vout_within L r s)
    (h : avg_after r.BUCK1_Iout_get_result (k + 1) s.vars.buck1_iout_avg > L.BUCK1_Iout_MAX) :
    (run L (List.replicate (k + 1) (Op.buck1 r)) s).vars.buck_state = Ifx_BUCK_STATE_FAULT ∧
    (run L (List.replicate (k + 1) (Op.buck1 r)) s).log =
      (run L (List.replicate k (Op.buck1 r)) s).log ++ shutdown_sequence := by
  obtain ⟨e1, e2⟩ := run_buck1_step L r s k
  have hR : avg_after r.BUCK1_Vin_get_result (k + 1) s.vars.vin_avg < L.BUCK1_Vin_MIN ∨
      avg_after r.BUCK1_Vin_get_result (k + 1) s.vars.vin_avg > L.BUCK1_Vin_MAX ∨
      avg_after r.BUCK1_Iout_get_result (k + 1) s.vars.buck1_iout_avg > L.BUCK1_Iout_MAX ∨
      avg_after r.BUCK1_Temp_get_result (k + 1) s.vars.buck1_temp_avg > L.BUCK1_Temp_MAX :=
    Or.inr (Or.inr (Or.inl h))
  have hV : ¬ ((run L (List.replicate k (Op.buck1 r)) s).vars.buck1_enable_protection
        = c_true ∧
      (avg_after r.BUCK1_Vout_get_result (k + 1) s.vars.buck1_vout_avg < L.BUCK1_Vout_MIN ∨
        avg_after r.BUCK1_Vout_get_result (k + 1) s.vars.buck1_vout_avg
          > L.BUCK1_Vout_MAX)) := by
    rintro ⟨_, h | h⟩
    · exact absurd h (not_lt.mpr (le_avg_after _ _ _ _ hvout.1.1 hvout.2.1))
    · exact absurd h (not_lt.mpr (avg_after_le _ _ _ _ hvout.1.2 hvout.2.2))
  rw [e1, e2, if_pos (Or.inl hR), if_pos hR, if_neg hV, List.append_nil]
  exact ⟨rfl, rfl⟩

/-- With the temperature and output voltage within their limits, a run of
buck2 calls is quiet as long as the current average is at most
`BUCK2_Iout_MAX`. -/
theorem run_buck2_quiet_of_within (L : Limits) (r : Buck2Read) (s : State) (k : Nat)
    (htemp : buck2_temp_within L r s) (hvout : buck2_vout_within L r s)
    (hi : ∀ j, j < k →
      avg_after r.BUCK2_Iout_get_result (j + 1) s.vars.buck2_iout_avg ≤ L.BUCK2_Iout_MAX) :
    (run L (List.replicate k (Op.buck2 r)) s).vars.buck_state = s.vars.buck_state ∧
    (run L (List.replicate k (Op.buck2 r)) s).log = s.log := by
  apply run_buck2_quiet
  · intro j hj
    rintro (h | h)
    · exact absurd h (not_lt.mpr (hi j hj))
    · exact absurd h (not_lt.mpr (avg_after_le _ _ _ _ htemp.1 htemp.2))
  · intro j _
    rintro ⟨_, h | h⟩
    · exact absurd h (not_lt.mpr (le_avg_after _ _ _ _ hvout.1.1 hvout.2.1))
    · exact absurd h (not_lt.mpr (avg_after_le _ _ _ _ hvout.1.2 hvout.2.2))

/-- With the output voltage within its limits, the buck2 call that brings the
current average above `BUCK2_Iout_MAX` sets FAULT and issues the shutdown
sequence once. -/
theorem run_buck2_current_fault (L : Limits) (r : Buck2Read) (s : State) (k : Nat)
    (hvout : buck2_vout_within L r s)
    (h : avg_after r.BUCK2_Iout_get_result (k + 1) s.vars.buck2_iout_avg > L.BUCK2_Iout_MAX) :
    (run L (List.replicate (k + 1) (Op.buck2 r)) s).vars.buck_state = Ifx_BUCK_STATE_FAULT ∧
    (run L (List.replicate (k + 1) (Op.buck2 r)) s).log =
      (run L (List.replicate k (Op.buck2 r)) s).log ++ shutdown_sequence := by
  obtain ⟨e1, e2⟩ := run_buck2_step L r s k
  have hR : avg_after r.BUCK2_Iout_get_result (k + 1) s.vars.buck2_iout_avg > L.BUCK2_Iout_MAX ∨
      avg_after r.BUCK2_Temp_get_result (k + 1) s.vars.buck2_temp_avg > L.BUCK2_Temp_MAX :=
    Or.inl h
  have hV : ¬ ((run L (List.replicate k (Op.buck2 r)) s).vars.buck2_enable_protection
        = c_true ∧
      (avg_after r.BUCK2_Vout_get_result (k + 1) s.vars.buck2_vout_avg < L.BUCK2_Vout_MIN ∨
        avg_after r.BUCK2_Vout_get_result (k + 1) s.vars.buck2_vout_avg
          > L.BUCK2_Vout_MAX)) := by
    rintro ⟨_, h | h⟩
    · exact absurd h (not_lt.mpr (le_avg_after _ _ _ _ hvout.1.1 hvout.2.1))
    · exact absurd h (not_lt.mpr (avg_after_le _ _ _ _ hvout.1.2 hvout.2.2))
  rw [e1, e2, if_pos (Or.inl hR), if_pos hR, if_neg hV, List.append_nil]
  exact ⟨rfl, rfl⟩

/-- From 0 with the raw value held at 6, the average is above 5 from update
14 on and not before. -/
theorem ramp_six_above_five (k : Nat) : 5 < avg_after 6 k 0 ↔ 14 ≤ k := by
  rw [avg_after_zero_closed]
  constructor
  · intro h
    by_contra hk
    have hk13 : k ≤ 13 := by omega
    have h1 := seven_eighths_pow_anti k 13 hk13
    have h2 : (1 : ℚ) / 6 < (1 - 1 / 8) ^ 13 := by norm_num
    linarith
  · intro hk
    have h1 := seven_eighths_pow_anti 14 k hk
    have h2 : ((1 : ℚ) - 1 / 8) ^ 14 < 1 / 6 := by norm_num
    linarith

/-! ## The arming run: output voltage from 0 towards 205, target 200 -/

/-- From 0 with the raw value held at 205, the average is above 200 from
update 28 on and not before. -/
theorem ramp_205_above_200 (k : Nat) : 200 < avg_after 205 k 0 ↔ 28 ≤ k := by
  rw [avg_after_zero_closed]
  constructor
  · intro h
    by_contra hk
    have hk27 : k ≤ 27 := by omega
    have h1 := seven_eighths_pow_anti k 27 hk27
    have h2 : (1 : ℚ) / 41 < (1 - 1 / 8) ^ 27 := by norm_num
    linarith
  · intro hk
    have h1 := seven_eighths_pow_anti 28 k hk
    have h2 : ((1 : ℚ) - 1 / 8) ^ 28 < 1 / 41 := by norm_num
    linarith

theorem ramp_205_le (k : Nat) : avg_after 205 k 0 ≤ 205 :=
  avg_after_le 205 205 k 0 (by norm_num) (le_refl _)

/-- The buck1 latch, `buck_state` and the log along the arming run. -/
theorem buck1_arming_run (L : Limits) (r : Buck1Read) (s : State)
    (hmin : L.BUCK1_Vout_MIN = 190) (hmax : L.BUCK1_Vout_MAX = 210)
    (htarg : r.BUCK1_targ = 200) (hx : r.BUCK1_Vout_get_result = 205)
    (h0 : s.vars.buck1_vout_avg = 0) (hl : s.vars.buck1_enable_protection = c_false)
    (hvin : vin_within L r s) (hiout : buck1_iout_within L r s)
    (htemp : buck1_temp_within L r s) (k : Nat) :
    (run L (List.replicate k (Op.buck1 r)) s).vars.buck1_enable_protection
      = (if 28 ≤ k then c_true else c_false) ∧
    (run L (List.replicate k (Op.buck1 r)) s).vars.buck_state = s.vars.buck_state ∧
    (run L (List.replicate k (Op.buck1 r)) s).log = s.log := by
  have hne : c_false ≠ c_true := by decide
  have hlatch : ∀ j : Nat,
      (run L (List.replicate j (Op.buck1 r)) s).vars.buck1_enable_protection
        = (if 28 ≤ j then c_true else c_false) := by
    intro j
    induction j with
    | zero => simpa using hl
    | succ j ih =>
      rw [run_buck1_latch, ih, hx, h0, htarg]
      by_cases hj : 28 ≤ j
      · have hj1 : 28 ≤ j + 1 := by omega
        simp [hj, hj1]
      · by_cases hj1 : 28 ≤ j + 1
        · have hgt := (ramp_205_above_200 (j + 1)).mpr hj1
          simp [hj, hj1, hne, hgt]
        · have hle : ¬ (200 < avg_after 205 (j + 1) 0) :=
            fun h => hj1 ((ramp_205_above_200 (j + 1)).mp h)
          simp [hj, hj1, hle]
  refine ⟨hlatch k, ?_⟩
  apply run_buck1_quiet
  · intro j _
    rintro (h | h | h | h)
    · exact absurd h (not_lt.mpr (le_avg_after _ _ _ _ hvin.1.1 hvin.2.1))
    · exact absurd h (not_lt.mpr (avg_after_le _ _ _ _ hvin.1.2 hvin.2.2))
    · exact absurd h (not_lt.mpr (avg_after_le _ _ _ _ hiout.1 hiout.2))
    · exact absurd h (not_lt.mpr (avg_after_le _ _ _ _ htemp.1 htemp.2))
  · intro j _
    rw [hlatch j, hx, h0, hmin, hmax]
    rintro ⟨ha, hout⟩
    have hj : 28 ≤ j := by
      by_contra hj
      rw [if_neg hj] at ha
      exact hne ha
    have hgt := (ramp_205_above_200 (j + 1)).mpr (by omega)
    have hle := ramp_205_le (j + 1)
    rcases hout with h | h
    · linarith
    · change 210 < avg_after 205 (j + 1) 0 at h
      linarith

/-- The buck2 latch, `buck_state` and the log along the arming run. -/
theorem buck2_arming_run (L : Limits) (r : Buck2Read) (s : State)
    (hmin : L.BUCK2_Vout_MIN = 190) (hmax : L.BUCK2_Vout_MAX = 210)
    (htarg : r.BUCK2_targ = 200) (hx : r.BUCK2_Vout_get_result = 205)
    (h0 : s.vars.buck2_vout_avg = 0) (hl : s.vars.buck2_enable_protection = c_false)
    (hiout : buck2_iout_within L r s) (htemp : buck2_temp_within L r s) (k : Nat) :
    (run L (List.replicate k (Op.buck2 r)) s).vars.buck2_enable_protection
      = (if 28 ≤ k then c_true else c_false) ∧
    (run L (List.replicate k (Op.buck2 r)) s).vars.buck_state = s.vars.buck_state ∧
    (run L (List.replicate k (Op.buck2 r)) s).log = s.log := by
  have hne : c_false ≠ c_true := by decide
  have hlatch : ∀ j : Nat,
      (run L (List.replicate j (Op.buck2 r)) s).vars.buck2_enable_protection
        = (if 28 ≤ j then c_true else c_false) := by
    intro j
    induction j with
    | zero => simpa using hl
    | succ j ih =>
      rw [run_buck2_latch, ih, hx, h0, htarg]
      by_cases hj : 28 ≤ j
      · have hj1 : 28 ≤ j + 1 := by omega
        simp [hj, hj1]
      · by_cases hj1 : 28 ≤ j + 1
        · have hgt := (ramp_205_above_200 (j + 1)).mpr hj1
          simp [hj, hj1, hne, hgt]
        · have hle : ¬ (200 < avg_after 205 (j + 1) 0) :=
            fun h => hj1 ((ramp_205_above_200 (j + 1)).mp h)
          simp [hj, hj1, hle]
  refine ⟨hlatch k, ?_⟩
  apply run_buck2_quiet
  · intro j _
    rintro (h | h)
    · exact absurd h (not_lt.mpr (avg_after_le _ _ _ _ hiout.1 hiout.2))
    · exact absurd h (not_lt.mpr (avg_after_le _ _ _ _ htemp.1 htemp.2))
  · intro j _
    rw [hlatch j, hx, h0, hmin, hmax]
    rintro ⟨ha, hout⟩
    have hj : 28 ≤ j := by
      by_contra hj
      rw [if_neg hj] at ha
      exact hne ha
    have hgt := (ramp_205_above_200 (j + 1)).mpr (by omega)
    have hle := ramp_205_le (j + 1)
    rcases hout with h | h
    · linarith
    · change 210 < avg_after 205 (j + 1) 0 at h
      linarith

/-! ## The claims -/

/-- C1: for `buck1_pre_process_callback`, from every prior state, with every
raw sample tuple and every choice of limits, the resulting `buck_state` is FAULT
exactly when, on the averages as updated in this call, `vin_avg` is below
`BUCK1_Vin_MIN` or above `BUCK1_Vin_MAX`, or `buck1_iout_avg` is above
`BUCK1_Iout_MAX`, or `buck1_temp_avg` is above `BUCK1_Temp_MAX`, or the latch
`buck1_enable_protection` was true at entry and `buck1_vout_avg` is outside
`[BUCK1_Vout_MIN, BUCK1_Vout_MAX]`, or `buck_state` was FAULT already. In every
other case `buck_state` is unchanged and no command is issued. The current
and temperature checks fire with the latch not true, and averages equal to
their limits do not fault. -/
theorem C1_buck1_fault_iff (L : Limits) (r : Buck1Read) (s : State) :
    let t := buck1_pre_process_callback L r s
    let fires : Prop :=
      t.vars.vin_avg < L.BUCK1_Vin_MIN ∨ t.vars.vin_avg > L.BUCK1_Vin_MAX ∨
      t.vars.buck1_iout_avg > L.BUCK1_Iout_MAX ∨
      t.vars.buck1_temp_avg > L.BUCK1_Temp_MAX ∨
      (s.vars.buck1_enable_protection = c_true ∧
        (t.vars.buck1_vout_avg < L.BUCK1_Vout_MIN ∨
          t.vars.buck1_vout_avg > L.BUCK1_Vout_MAX)) ∨
      s.vars.buck_state = Ifx_BUCK_STATE_FAULT
    (t.vars.buck_state = Ifx_BUCK_STATE_FAULT ↔ fires) ∧
    (¬ fires → t.vars.buck_state = s.vars.buck_state ∧ t.log = s.log) ∧
    (s.vars.buck1_enable_protection ≠ c_true →
      t.vars.buck1_iout_avg > L.BUCK1_Iout_MAX ∨ t.vars.buck1_temp_avg > L.BUCK1_Temp_MAX →
      t.vars.buck_state = Ifx_BUCK_STATE_FAULT) ∧
    (s.vars.buck_state ≠ Ifx_BUCK_STATE_FAULT →
      L.BUCK1_Vin_MIN ≤ t.vars.vin_avg → t.vars.vin_avg ≤ L.BUCK1_Vin_MAX →
      t.vars.buck1_iout_avg ≤ L.BUCK1_Iout_MAX →
      t.vars.buck1_temp_avg ≤ L.BUCK1_Temp_MAX →
      (s.vars.buck1_enable_protection = c_true →
        L.BUCK1_Vout_MIN ≤ t.vars.buck1_vout_avg ∧
          t.vars.buck1_vout_avg ≤ L.BUCK1_Vout_MAX) →
      t.vars.buck_state = s.vars.buck_state ∧ t.log = s.log) := by
  intro t fires
  have key : (t.vars.buck_state = Ifx_BUCK_STATE_FAULT ↔ fires) ∧
      (¬ fires → t.vars.buck_state = s.vars.buck_state ∧ t.log = s.log) := by
    obtain ⟨e1, e2⟩ := buck1_callback_effect L r s
    have hf : fires ↔
        ((t.vars.vin_avg < L.BUCK1_Vin_MIN ∨ t.vars.vin_avg > L.BUCK1_Vin_MAX ∨
            t.vars.buck1_iout_avg > L.BUCK1_Iout_MAX ∨
            t.vars.buck1_temp_avg > L.BUCK1_Temp_MAX) ∨
          (s.vars.buck1_enable_protection = c_true ∧
            (t.vars.buck1_vout_avg < L.BUCK1_Vout_MIN ∨
              t.vars.buck1_vout_avg > L.BUCK1_Vout_MAX))) ∨
        s.vars.buck_state = Ifx_BUCK_STATE_FAULT := by
      simp only [fires, or_assoc]
    rw [hf]
    change t.vars.buck_state = _ at e1
    change t.log = _ at e2
    rw [e1, e2]
    split_ifs with h1 h2 h3 <;> simp_all
  refine ⟨key.1, key.2, ?_, ?_⟩
  · intro _ h
    exact key.1.mpr (by
      rcases h with h | h
      · exact Or.inr (Or.inr (Or.inl h))
      · exact Or.inr (Or.inr (Or.inr (Or.inl h))))
  · intro h0 h1 h2 h3 h4 h5
    apply key.2
    rintro (h | h | h | h | ⟨ha, h | h⟩ | h)
    · exact absurd h (not_lt.mpr h1)
    · exact absurd h (not_lt.mpr h2)
    · exact absurd h (not_lt.mpr h3)
    · exact absurd h (not_lt.mpr h4)
    · exact absurd h (not_lt.mpr (h5 ha).1)
    · exact absurd h (not_lt.mpr (h5 ha).2)
    · exact h0 h

/-- C1 at concrete inputs: from `s0` (latch off) a current reading of 41 lifts
the average to 6 > 5 and faults; a run of readings that puts every average
exactly on its limit leaves `buck_state` and the log as they were. -/
theorem C1_buck1_fault_iff_witness :
    (buck1_pre_process_callback L0 { r1 with BUCK1_Iout_get_result := 41 } s0).vars.buck_state
        = Ifx_BUCK_STATE_FAULT ∧
    ((buck1_pre_process_callback L0
        { BUCK1_Vout_get_result := 280, BUCK1_Vin_get_result := 5058,
          BUCK1_Iout_get_result := 33, BUCK1_Temp_get_result := 520, BUCK1_targ := 195 }
        { s0 with vars := { s0.vars with buck1_enable_protection := c_true } }).vars.buck_state
        = Ifx_BUCK_STATE_RUN ∧
      (buck1_pre_process_callback L0
        { BUCK1_Vout_get_result := 280, BUCK1_Vin_get_result := 5058,
          BUCK1_Iout_get_result := 33, BUCK1_Temp_get_result := 520, BUCK1_targ := 195 }
        { s0 with vars := { s0.vars with buck1_enable_protection := c_true } }).log = []) :=
  ⟨(C1_buck1_fault_iff L0 { r1 with BUCK1_Iout_get_result := 41 } s0).2.2.1
      (by decide)
      (Or.inl (by
        rw [(buck1_callback_avgs _ _ _).2.1]
        norm_num [moving_average, AVERAGING_SAMPLES, L0, s0, r1])),
    (C1_buck1_fault_iff L0
        { BUCK1_Vout_get_result := 280, BUCK1_Vin_get_result := 5058,
          BUCK1_Iout_get_result := 33, BUCK1_Temp_get_result := 520, BUCK1_targ := 195 }
        { s0 with vars := { s0.vars with buck1_enable_protection := c_true } }).2.2.2
      (by decide)
      (by rw [(buck1_callback_avgs _ _ _).2.2.2]
          norm_num [moving_average, AVERAGING_SAMPLES, L0, s0])
      (by rw [(buck1_callback_avgs _ _ _).2.2.2]
          norm_num [moving_average, AVERAGING_SAMPLES, L0, s0])
      (by rw [(buck1_callback_avgs _ _ _).2.1]
          norm_num [moving_average, AVERAGING_SAMPLES, L0, s0])
      (by rw [(buck1_callback_avgs _ _ _).2.2.1]
          norm_num [moving_average, AVERAGING_SAMPLES, L0, s0])
      (fun _ => by
        rw [(buck1_callback_avgs _ _ _).1]
        norm_num [moving_average, AVERAGING_SAMPLES, L0, s0])⟩

/-- C2: FAULT is absorbing. From a state with `buck_state` FAULT, each of
`fault_processing`, `buck1_pre_process_callback` and
`buck2_pre_process_callback` returns a state with `buck_state` FAULT, whatever
is read; and along any finite sequence of these operations, once FAULT holds
after a first part of the sequence it holds after every longer part. -/
theorem C2_fault_absorbing (L : Limits) :
    (∀ s : State, s.vars.buck_state = Ifx_BUCK_STATE_FAULT →
      (fault_processing s).vars.buck_state = Ifx_BUCK_STATE_FAULT) ∧
    (∀ (r : Buck1Read) (s : State), s.vars.buck_state = Ifx_BUCK_STATE_FAULT →
      (buck1_pre_process_callback L r s).vars.buck_state = Ifx_BUCK_STATE_FAULT) ∧
    (∀ (r : Buck2Read) (s : State), s.vars.buck_state = Ifx_BUCK_STATE_FAULT →
      (buck2_pre_process_callback L r s).vars.buck_state = Ifx_BUCK_STATE_FAULT) ∧
    (∀ (ops later : List Op) (s : State),
      (run L ops s).vars.buck_state = Ifx_BUCK_STATE_FAULT →
      (run L (ops ++ later) s).vars.buck_state = Ifx_BUCK_STATE_FAULT) := by
  refine ⟨fun s _ => rfl, fun r s h => ?_, fun r s h => ?_, fun ops later s h => ?_⟩
  · exact Op.apply_fault_of_fault L (Op.buck1 r) s h
  · exact Op.apply_fault_of_fault L (Op.buck2 r) s h
  · rw [run_append]
    exact run_fault_of_fault L later _ h

/-- C2 at concrete inputs: from `s0` put into FAULT, nominal readings on
either channel leave FAULT in place, and a run that faults on its first
operation is still in FAULT after two more nominal callbacks. -/
theorem C2_fault_absorbing_witness :
    (fault_processing (fault_processing s0)).vars.buck_state = Ifx_BUCK_STATE_FAULT ∧
    (buck1_pre_process_callback L0 r1 (fault_processing s0)).vars.buck_state
      = Ifx_BUCK_STATE_FAULT ∧
    (buck2_pre_process_callback L0 r2 (fault_processing s0)).vars.buck_state
      = Ifx_BUCK_STATE_FAULT ∧
    (run L0 ([Op.fault] ++ [Op.buck1 r1, Op.buck2 r2]) s0).vars.buck_state
      = Ifx_BUCK_STATE_FAULT :=
  ⟨(C2_fault_absorbing L0).1 (fault_processing s0) rfl,
    (C2_fault_absorbing L0).2.1 r1 (fault_processing s0) rfl,
    (C2_fault_absorbing L0).2.2.1 r2 (fault_processing s0) rfl,
    (C2_fault_absorbing L0).2.2.2 [Op.fault] [Op.buck1 r1, Op.buck2 r2] s0 rfl⟩

/-- C3: from every prior state `fault_processing` issues exactly the six
commands disable buck1, disable buck2, stop or kill the transient-pulse
generator, set the fault indicator, clear the run indicator with compare value
`CLR_LED` = 0, re-enable the button interrupt, in this order and without any
condition; `buck_state` keeps its prior value while the first `k` statements
run, for every `k` up to six, and is FAULT after the seventh; no other
variable changes; the first two commands issued are the actuator disables. -/
theorem C3_fault_processing_sequence (s : State) :
    (fault_processing s).log =
      s.log ++ [Cmd.BUCK1_disable, Cmd.BUCK2_disable, Cmd.Cy_TCPWM_TriggerStopOrKill_Single,
        Cmd.Cy_GPIO_Clr, Cmd.Cy_TCPWM_PWM_SetCompare0Val 0, Cmd.NVIC_EnableIRQ] ∧
    (fault_processing s).vars = { s.vars with buck_state := Ifx_BUCK_STATE_FAULT } ∧
    fault_processing_body.length = 7 ∧
    (∀ k : Fin 7,
      (exec (fault_processing_body.take k) s).vars = s.vars ∧
      (exec (fault_processing_body.take k) s).log =
        s.log ++ List.take k [Cmd.BUCK1_disable, Cmd.BUCK2_disable,
          Cmd.Cy_TCPWM_TriggerStopOrKill_Single, Cmd.Cy_GPIO_Clr,
          Cmd.Cy_TCPWM_PWM_SetCompare0Val 0, Cmd.NVIC_EnableIRQ]) ∧
    ((fault_processing s).log.drop s.log.length).take 2 =
      [Cmd.BUCK1_disable, Cmd.BUCK2_disable] := by
  refine ⟨?_, rfl, rfl, ?_, ?_⟩
  · simp [fault_processing, exec, fault_processing_body, Stmt.run, CLR_LED]
  · intro k
    fin_cases k <;> simp [exec, fault_processing_body, Stmt.run, CLR_LED]
  · simp [fault_processing, exec, fault_processing_body, Stmt.run]

/-- C4: fault idempotence. After one and after two calls of
`fault_processing` the `buck_state` is FAULT, the two results agree on every
variable, every variable other than `buck_state` (averages, raw samples, both
latches) is that of the starting state, and the second call appends the same
six-command shutdown sequence that the first call appended. -/
theorem C4_fault_idempotent (s : State) :
    (fault_processing s).vars.buck_state = Ifx_BUCK_STATE_FAULT ∧
    (fault_processing (fault_processing s)).vars.buck_state = Ifx_BUCK_STATE_FAULT ∧
    (fault_processing (fault_processing s)).vars = (fault_processing s).vars ∧
    (fault_processing s).vars = { s.vars with buck_state := Ifx_BUCK_STATE_FAULT } ∧
    (fault_processing s).log = s.log ++ shutdown_sequence ∧
    (fault_processing (fault_processing s)).log =
      (fault_processing s).log ++ shutdown_sequence ∧
    shutdown_sequence.length = 6 := by
  refine ⟨rfl, rfl, rfl, rfl, fault_processing_log s, fault_processing_log _, rfl⟩

/-- C5: sample filter. After `buck1_pre_process_callback` each of
`buck1_vout_avg`, `buck1_iout_avg`, `buck1_temp_avg` and `vin_avg` equals
`avg - (avg - x) / 8` with `avg` its value at entry and `x` the raw sample read
in this call (which is what the raw-sample variable then holds); after
`buck2_pre_process_callback` the same holds for the three buck2 averages. The
statement is for every state at entry, so for every `buck_state` (FAULT
included), every value of the latches and whether or not a fault fires. -/
theorem C5_sample_filter (L : Limits) (q1 : Buck1Read) (q2 : Buck2Read) (s : State) :
    ((buck1_pre_process_callback L q1 s).vars.buck1_vout_adc_res = q1.BUCK1_Vout_get_result ∧
      (buck1_pre_process_callback L q1 s).vars.buck1_iout_adc_res = q1.BUCK1_Iout_get_result ∧
      (buck1_pre_process_callback L q1 s).vars.buck1_temp_adc_res = q1.BUCK1_Temp_get_result ∧
      (buck1_pre_process_callback L q1 s).vars.vin_adc_res = q1.BUCK1_Vin_get_result) ∧
    ((buck1_pre_process_callback L q1 s).vars.buck1_vout_avg =
        s.vars.buck1_vout_avg - (s.vars.buck1_vout_avg - q1.BUCK1_Vout_get_result) / 8 ∧
      (buck1_pre_process_callback L q1 s).vars.buck1_iout_avg =
        s.vars.buck1_iout_avg - (s.vars.buck1_iout_avg - q1.BUCK1_Iout_get_result) / 8 ∧
      (buck1_pre_process_callback L q1 s).vars.buck1_temp_avg =
        s.vars.buck1_temp_avg - (s.vars.buck1_temp_avg - q1.BUCK1_Temp_get_result) / 8 ∧
      (buck1_pre_process_callback L q1 s).vars.vin_avg =
        s.vars.vin_avg - (s.vars.vin_avg - q1.BUCK1_Vin_get_result) / 8) ∧
    ((buck2_pre_process_callback L q2 s).vars.buck2_vout_adc_res = q2.BUCK2_Vout_get_result ∧
      (buck2_pre_process_callback L q2 s).vars.buck2_iout_adc_res = q2.BUCK2_Iout_get_result ∧
      (buck2_pre_process_callback L q2 s).vars.buck2_temp_adc_res = q2.BUCK2_Temp_get_result) ∧
    ((buck2_pre_process_callback L q2 s).vars.buck2_vout_avg =
        s.vars.buck2_vout_avg - (s.vars.buck2_vout_avg - q2.BUCK2_Vout_get_result) / 8 ∧
      (buck2_pre_process_callback L q2 s).vars.buck2_iout_avg =
        s.vars.buck2_iout_avg - (s.vars.buck2_iout_avg - q2.BUCK2_Iout_get_result) / 8 ∧
      (buck2_pre_process_callback L q2 s).vars.buck2_temp_avg =
        s.vars.buck2_temp_avg - (s.vars.buck2_temp_avg - q2.BUCK2_Temp_get_result) / 8) := by
  have m : ∀ a x : ℚ, moving_average a x = a - (a - x) / 8 := by
    intro a x
    simp [moving_average, AVERAGING_SAMPLES]
  obtain ⟨a1, a2, a3, a4⟩ := buck1_callback_avgs L q1 s
  obtain ⟨b1, b2, b3⟩ := buck2_callback_avgs L q2 s
  refine ⟨?_, ⟨by rw [a1, m], by rw [a2, m], by rw [a3, m], by rw [a4, m]⟩, ?_,
    ⟨by rw [b1, m], by rw [b2, m], by rw [b3, m]⟩⟩
  · simp only [buck1_pre_process_callback, buck1_check_vout, buck1_check_range,
      buck1_average, buck1_read]
    split_ifs <;> exact ⟨rfl, rfl, rfl, rfl⟩
  · simp only [buck2_pre_process_callback, buck2_check_vout, buck2_check_range,
      buck2_average, buck2_read]
    split_ifs <;> exact ⟨rfl, rfl, rfl⟩

/-- C6: filter convergence, closed form. After `k` consecutive calls of a
callback that read the same raw values, each average it maintains is
`avg_after x k avg0`, the `k`-fold moving-average update of its starting
value, and for every `avg0`, `x` and `k` this satisfies
`avg_k - x = (1 - 1/8)^k * (avg0 - x)`; hence the distance to `x` never grows
from one update to the next, and the average never crosses `x`. -/
theorem C6_filter_closed_form (L : Limits) (q1 : Buck1Read) (q2 : Buck2Read) (s : State)
    (avg0 x : ℚ) (k : Nat) :
    ((run L (List.replicate k (Op.buck1 q1)) s).vars.buck1_vout_avg =
        avg_after q1.BUCK1_Vout_get_result k s.vars.buck1_vout_avg ∧
      (run L (List.replicate k (Op.buck1 q1)) s).vars.buck1_iout_avg =
        avg_after q1.BUCK1_Iout_get_result k s.vars.buck1_iout_avg ∧
      (run L (List.replicate k (Op.buck1 q1)) s).vars.buck1_temp_avg =
        avg_after q1.BUCK1_Temp_get_result k s.vars.buck1_temp_avg ∧
      (run L (List.replicate k (Op.buck1 q1)) s).vars.vin_avg =
        avg_after q1.BUCK1_Vin_get_result k s.vars.vin_avg) ∧
    ((run L (List.replicate k (Op.buck2 q2)) s).vars.buck2_vout_avg =
        avg_after q2.BUCK2_Vout_get_result k s.vars.buck2_vout_avg ∧
      (run L (List.replicate k (Op.buck2 q2)) s).vars.buck2_iout_avg =
        avg_after q2.BUCK2_Iout_get_result k s.vars.buck2_iout_avg ∧
      (run L (List.replicate k (Op.buck2 q2)) s).vars.buck2_temp_avg =
        avg_after q2.BUCK2_Temp_get_result k s.vars.buck2_temp_avg) ∧
    avg_after x k avg0 - x = (1 - 1 / 8) ^ k * (avg0 - x) ∧
    |avg_after x (k + 1) avg0 - x| ≤ |avg_after x k avg0 - x| ∧
    (avg0 ≤ x → avg_after x k avg0 ≤ x) ∧
    (x ≤ avg0 → x ≤ avg_after x k avg0) := by
  have hp : (0 : ℚ) ≤ (1 - 1 / 8) ^ k := by positivity
  have hc := avg_after_closed x k avg0
  refine ⟨run_buck1_avgs L q1 k s, run_buck2_avgs L q2 k s, hc, ?_, ?_, ?_⟩
  · rw [avg_after, moving_average_sub, abs_mul]
    have h78 : |(1 : ℚ) - 1 / 8| ≤ 1 := by norm_num [abs_le]
    calc |(1 : ℚ) - 1 / 8| * |avg_after x k avg0 - x|
        ≤ 1 * |avg_after x k avg0 - x| :=
          mul_le_mul_of_nonneg_right h78 (abs_nonneg _)
      _ = |avg_after x k avg0 - x| := one_mul _
  · intro h
    have : avg_after x k avg0 - x ≤ 0 := by
      rw [hc]
      exact mul_nonpos_of_nonneg_of_nonpos hp (by linarith)
    linarith
  · intro h
    have : 0 ≤ avg_after x k avg0 - x := by
      rw [hc]
      exact mul_nonneg hp (by linarith)
    linarith

/-- C6 at concrete inputs: from 0 towards 8 the average after two updates is
at most 8, and from 16 towards 8 it is at least 8. -/
theorem C6_filter_closed_form_witness :
    avg_after 8 2 0 ≤ 8 ∧ (8 : ℚ) ≤ avg_after 8 2 16 :=
  ⟨(C6_filter_closed_form L0 r1 r2 s0 0 8 2).2.2.2.2.1 (by norm_num),
    (C6_filter_closed_form L0 r1 r2 s0 16 8 2).2.2.2.2.2 (by norm_num)⟩

/-- C7 fails as stated: from `s0`, whose `buck1_vout_avg` is 200, with the
raw output voltage held at 1, the average after 40 calls of
`buck1_pre_process_callback` is still further than 0.01 from 1. -/
theorem C7_counterexample :
    ¬ (|(run L0 (List.replicate 40 (Op.buck1 { r1 with BUCK1_Vout_get_result := 1 }))
          s0).vars.buck1_vout_avg - 1| ≤ (1 / 100) * |(1 : ℚ)|) := by
  rw [(run_buck1_avgs L0 _ 40 s0).1]
  change ¬ (|avg_after 1 40 200 - 1| ≤ (1 / 100) * |(1 : ℚ)|)
  rw [avg_after_closed]
  norm_num [abs_of_nonneg]

/-- C7, amended: after 40 updates with a constant input `x` the distance of
the average to `x` is at most 1% of its initial distance `|avg0 - x|`, on the
pure filter and on each average after 40 calls of its callback; so the result
is within 1% of `x` whenever the initial distance is at most `2 * |x|`, in
particular when the average starts at 0. -/
theorem C7_filter_one_percent (L : Limits) (q1 : Buck1Read) (q2 : Buck2Read) (s : State)
    (avg0 x : ℚ) :
    |avg_after x 40 avg0 - x| ≤ (1 / 100) * |avg0 - x| ∧
    (|avg0 - x| ≤ 2 * |x| → |avg_after x 40 avg0 - x| ≤ (1 / 100) * |x|) ∧
    |avg_after x 40 0 - x| ≤ (1 / 100) * |x| ∧
    (run L (List.replicate 40 (Op.buck1 q1)) s).vars.buck1_vout_avg =
      avg_after q1.BUCK1_Vout_get_result 40 s.vars.buck1_vout_avg ∧
    (run L (List.replicate 40 (Op.buck1 q1)) s).vars.buck1_iout_avg =
      avg_after q1.BUCK1_Iout_get_result 40 s.vars.buck1_iout_avg ∧
    (run L (List.replicate 40 (Op.buck1 q1)) s).vars.buck1_temp_avg =
      avg_after q1.BUCK1_Temp_get_result 40 s.vars.buck1_temp_avg ∧
    (run L (List.replicate 40 (Op.buck1 q1)) s).vars.vin_avg =
      avg_after q1.BUCK1_Vin_get_result 40 s.vars.vin_avg ∧
    (run L (List.replicate 40 (Op.buck2 q2)) s).vars.buck2_vout_avg =
      avg_after q2.BUCK2_Vout_get_result 40 s.vars.buck2_vout_avg ∧
    (run L (List.replicate 40 (Op.buck2 q2)) s).vars.buck2_iout_avg =
      avg_after q2.BUCK2_Iout_get_result 40 s.vars.buck2_iout_avg ∧
    (run L (List.replicate 40 (Op.buck2 q2)) s).vars.buck2_temp_avg =
      avg_after q2.BUCK2_Temp_get_result 40 s.vars.buck2_temp_avg := by
  have hp : (0 : ℚ) ≤ (1 - 1 / 8) ^ 40 := by positivity
  have key : ∀ a : ℚ, |avg_after x 40 a - x| ≤ (1 / 200) * |a - x| := by
    intro a
    rw [avg_after_closed, abs_mul, abs_of_nonneg hp]
    exact mul_le_mul_of_nonneg_right seven_eighths_pow_40 (abs_nonneg _)
  obtain ⟨a1, a2, a3, a4⟩ := run_buck1_avgs L q1 40 s
  obtain ⟨b1, b2, b3⟩ := run_buck2_avgs L q2 40 s
  refine ⟨?_, ?_, ?_, a1, a2, a3, a4, b1, b2, b3⟩
  · have := key avg0
    have h0 := abs_nonneg (avg0 - x)
    linarith
  · intro h
    have := key avg0
    linarith
  · have := key 0
    rw [zero_sub, abs_neg] at this
    have h0 := abs_nonneg x
    linarith

/-- C7 amended, at concrete inputs: from 10 towards 5 the initial distance 5
is below `2 * 5`, and the average after 40 updates is within 0.05 of 5. -/
theorem C7_filter_one_percent_witness :
    |avg_after 5 40 10 - 5| ≤ (1 / 100) * |(5 : ℚ)| :=
  (C7_filter_one_percent L0 r1 r2 s0 10 5).2.1 (by norm_num [abs_of_nonneg])

/-- C8: latch monotonicity. A latch that is true stays true through
`fault_processing`, `buck1_pre_process_callback` and
`buck2_pre_process_callback`, whatever the raw inputs and the target; so along
any finite sequence of operations a latch that is true after a first part is
true after every longer part, and in the history of each latch over the
states of a run (entry `i` being the state after the first `i` operations)
there is at most one step from not true to true and no step from true to not
true. -/
theorem C8_latch_monotone (L : Limits) :
    (∀ s : State, s.vars.buck1_enable_protection = c_true →
      (fault_processing s).vars.buck1_enable_protection = c_true) ∧
    (∀ (q : Buck1Read) (s : State), s.vars.buck1_enable_protection = c_true →
      (buck1_pre_process_callback L q s).vars.buck1_enable_protection = c_true) ∧
    (∀ (q : Buck2Read) (s : State), s.vars.buck1_enable_protection = c_true →
      (buck2_pre_process_callback L q s).vars.buck1_enable_protection = c_true) ∧
    (∀ s : State, s.vars.buck2_enable_protection = c_true →
      (fault_processing s).vars.buck2_enable_protection = c_true) ∧
    (∀ (q : Buck1Read) (s : State), s.vars.buck2_enable_protection = c_true →
      (buck1_pre_process_callback L q s).vars.buck2_enable_protection = c_true) ∧
    (∀ (q : Buck2Read) (s : State), s.vars.buck2_enable_protection = c_true →
      (buck2_pre_process_callback L q s).vars.buck2_enable_protection = c_true) ∧
    (∀ (ops later : List Op) (s : State),
      (run L ops s).vars.buck1_enable_protection = c_true →
      (run L (ops ++ later) s).vars.buck1_enable_protection = c_true) ∧
    (∀ (ops later : List Op) (s : State),
      (run L ops s).vars.buck2_enable_protection = c_true →
      (run L (ops ++ later) s).vars.buck2_enable_protection = c_true) ∧
    (∀ (ops : List Op) (s : State) (i : Nat), i ≤ ops.length →
      (states L ops s)[i]? = some (run L (ops.take i) s)) ∧
    (∀ (ops : List Op) (s : State),
      rises ((states L ops s).map (fun st => st.vars.buck1_enable_protection)) ≤ 1 ∧
      falls ((states L ops s).map (fun st => st.vars.buck1_enable_protection)) = 0 ∧
      rises ((states L ops s).map (fun st => st.vars.buck2_enable_protection)) ≤ 1 ∧
      falls ((states L ops s).map (fun st => st.vars.buck2_enable_protection)) = 0) := by
  refine ⟨fun s h => h, fun q s h => Op.apply_latch1 L (Op.buck1 q) s h,
    fun q s h => Op.apply_latch1 L (Op.buck2 q) s h, fun s h => h,
    fun q s h => Op.apply_latch2 L (Op.buck1 q) s h,
    fun q s h => Op.apply_latch2 L (Op.buck2 q) s h, ?_, ?_, ?_, ?_⟩
  · intro ops later s h
    rw [run_append]
    exact run_keeps_true L (fun st => st.vars.buck1_enable_protection)
      (Op.apply_latch1 L) later _ h
  · intro ops later s h
    rw [run_append]
    exact run_keeps_true L (fun st => st.vars.buck2_enable_protection)
      (Op.apply_latch2 L) later _ h
  · intro ops s i hi
    exact states_get L ops s i hi
  · intro ops s
    obtain ⟨x1, x2, _⟩ := rises_falls_of_keeps L
      (fun st => st.vars.buck1_enable_protection) (Op.apply_latch1 L) ops s
    obtain ⟨y1, y2, _⟩ := rises_falls_of_keeps L
      (fun st => st.vars.buck2_enable_protection) (Op.apply_latch2 L) ops s
    exact ⟨x1, x2, y1, y2⟩

/-- C8 at concrete inputs: from `s0_armed`, with both latches on, each latch
is still on after each of the three functions and after a run through all
three; and the second entry of the state history of a two-step run is the
state after its first step. -/
theorem C8_latch_monotone_witness :
    ((fault_processing s0_armed).vars.buck1_enable_protection = c_true ∧
      (buck1_pre_process_callback L0 r1 s0_armed).vars.buck1_enable_protection = c_true ∧
      (buck2_pre_process_callback L0 r2 s0_armed).vars.buck1_enable_protection = c_true) ∧
    ((fault_processing s0_armed).vars.buck2_enable_protection = c_true ∧
      (buck1_pre_process_callback L0 r1 s0_armed).vars.buck2_enable_protection = c_true ∧
      (buck2_pre_process_callback L0 r2 s0_armed).vars.buck2_enable_protection = c_true) ∧
    (run L0 ([Op.fault] ++ [Op.buck1 r1, Op.buck2 r2]) s0_armed).vars.buck1_enable_protection
      = c_true ∧
    (run L0 ([Op.fault] ++ [Op.buck1 r1, Op.buck2 r2]) s0_armed).vars.buck2_enable_protection
      = c_true ∧
    (states L0 [Op.buck1 r1, Op.fault] s0)[1]?
      = some (run L0 (List.take 1 [Op.buck1 r1, Op.fault]) s0) :=
  ⟨⟨(C8_latch_monotone L0).1 s0_armed rfl,
      (C8_latch_monotone L0).2.1 r1 s0_armed rfl,
      (C8_latch_monotone L0).2.2.1 r2 s0_armed rfl⟩,
    ⟨(C8_latch_monotone L0).2.2.2.1 s0_armed rfl,
      (C8_latch_monotone L0).2.2.2.2.1 r1 s0_armed rfl,
      (C8_latch_monotone L0).2.2.2.2.2.1 r2 s0_armed rfl⟩,
    (C8_latch_monotone L0).2.2.2.2.2.2.1 [Op.fault] [Op.buck1 r1, Op.buck2 r2] s0_armed rfl,
    (C8_latch_monotone L0).2.2.2.2.2.2.2.1 [Op.fault] [Op.buck1 r1, Op.buck2 r2] s0_armed rfl,
    (C8_latch_monotone L0).2.2.2.2.2.2.2.2.1 [Op.buck1 r1, Op.fault] s0 1 (by decide)⟩

/-- C9: arm transition. For a channel whose latch is false at entry to its
callback, the latch is true at exit exactly when the output-voltage average
as updated in this call is strictly above the channel target; and on such a
call the output-voltage range is not checked: if none of the unconditional
checks fires, `buck_state` is unchanged and no command is issued, wherever the
updated output-voltage average lies with respect to `Vout_MIN` and
`Vout_MAX`. -/
theorem C9_arm_transition (L : Limits) (q1 : Buck1Read) (q2 : Buck2Read) (s : State) :
    (s.vars.buck1_enable_protection = c_false →
      ((buck1_pre_process_callback L q1 s).vars.buck1_enable_protection = c_true ↔
        (buck1_pre_process_callback L q1 s).vars.buck1_vout_avg > q1.BUCK1_targ) ∧
      (¬ ((buck1_pre_process_callback L q1 s).vars.vin_avg < L.BUCK1_Vin_MIN ∨
          (buck1_pre_process_callback L q1 s).vars.vin_avg > L.BUCK1_Vin_MAX ∨
          (buck1_pre_process_callback L q1 s).vars.buck1_iout_avg > L.BUCK1_Iout_MAX ∨
          (buck1_pre_process_callback L q1 s).vars.buck1_temp_avg > L.BUCK1_Temp_MAX) →
        (buck1_pre_process_callback L q1 s).vars.buck_state = s.vars.buck_state ∧
        (buck1_pre_process_callback L q1 s).log = s.log)) ∧
    (s.vars.buck2_enable_protection = c_false →
      ((buck2_pre_process_callback L q2 s).vars.buck2_enable_protection = c_true ↔
        (buck2_pre_process_callback L q2 s).vars.buck2_vout_avg > q2.BUCK2_targ) ∧
      (¬ ((buck2_pre_process_callback L q2 s).vars.buck2_iout_avg > L.BUCK2_Iout_MAX ∨
          (buck2_pre_process_callback L q2 s).vars.buck2_temp_avg > L.BUCK2_Temp_MAX) →
        (buck2_pre_process_callback L q2 s).vars.buck_state = s.vars.buck_state ∧
        (buck2_pre_process_callback L q2 s).log = s.log)) := by
  have hne : c_false ≠ c_true := by decide
  constructor
  · intro h
    have hl : s.vars.buck1_enable_protection ≠ c_true := by rw [h]; exact hne
    obtain ⟨e1, e2⟩ := buck1_callback_effect L q1 s
    constructor
    · rw [(buck1_callback_latches L q1 s).1, (buck1_callback_avgs L q1 s).1]
      split_ifs with hc
      · simp [hc.2]
      · have : ¬ moving_average s.vars.buck1_vout_avg q1.BUCK1_Vout_get_result
            > q1.BUCK1_targ := fun hgt => hc ⟨hl, hgt⟩
        simp [this, h, hne]
    · intro hR
      rw [e1, e2]
      simp [hR, hl]
  · intro h
    have hl : s.vars.buck2_enable_protection ≠ c_true := by rw [h]; exact hne
    obtain ⟨e1, e2⟩ := buck2_callback_effect L q2 s
    constructor
    · rw [(buck2_callback_latches L q2 s).1, (buck2_callback_avgs L q2 s).1]
      split_ifs with hc
      · simp [hc.2]
      · have : ¬ moving_average s.vars.buck2_vout_avg q2.BUCK2_Vout_get_result
            > q2.BUCK2_targ := fun hgt => hc ⟨hl, hgt⟩
        simp [this, h, hne]
    · intro hR
      rw [e1, e2]
      simp [hR, hl]

/-- C9 at concrete inputs: from `s0` (latches off, averages 200) a raw output
voltage of 400 on buck1 gives the average 225, above the target 195 and above
`BUCK1_Vout_MAX` = 210: the latch is set, `buck_state` stays RUN and nothing is
issued. On buck2 a raw output voltage of 0 with target 100 gives 175, above
the target and below `BUCK2_Vout_MIN` = 190, with the same outcome. -/
theorem C9_arm_transition_witness :
    ((buck1_pre_process_callback L0 { r1 with BUCK1_Vout_get_result := 400 } s0
        ).vars.buck1_enable_protection = c_true ∧
      (buck1_pre_process_callback L0 { r1 with BUCK1_Vout_get_result := 400 } s0
        ).vars.buck1_vout_avg = 225 ∧
      (buck1_pre_process_callback L0 { r1 with BUCK1_Vout_get_result := 400 } s0
        ).vars.buck_state = Ifx_BUCK_STATE_RUN ∧
      (buck1_pre_process_callback L0 { r1 with BUCK1_Vout_get_result := 400 } s0).log = []) ∧
    ((buck2_pre_process_callback L0
        { r2 with BUCK2_Vout_get_result := 0, BUCK2_targ := 100 } s0
        ).vars.buck2_enable_protection = c_true ∧
      (buck2_pre_process_callback L0
        { r2 with BUCK2_Vout_get_result := 0, BUCK2_targ := 100 } s0
        ).vars.buck2_vout_avg = 175 ∧
      (buck2_pre_process_callback L0
        { r2 with BUCK2_Vout_get_result := 0, BUCK2_targ := 100 } s0
        ).vars.buck_state = Ifx_BUCK_STATE_RUN ∧
      (buck2_pre_process_callback L0
        { r2 with BUCK2_Vout_get_result := 0, BUCK2_targ := 100 } s0).log = []) := by
  have A := (C9_arm_transition L0 { r1 with BUCK1_Vout_get_result := 400 }
    { r2 with BUCK2_Vout_get_result := 0, BUCK2_targ := 100 } s0).1 rfl
  have B := (C9_arm_transition L0 { r1 with BUCK1_Vout_get_result := 400 }
    { r2 with BUCK2_Vout_get_result := 0, BUCK2_targ := 100 } s0).2 rfl
  obtain ⟨a1, a2, a3, a4⟩ :=
    buck1_callback_avgs L0 { r1 with BUCK1_Vout_get_result := 400 } s0
  obtain ⟨b1, b2, b3⟩ :=
    buck2_callback_avgs L0 { r2 with BUCK2_Vout_get_result := 0, BUCK2_targ := 100 } s0
  rw [a1, a2, a3, a4] at A
  rw [b1, b2, b3] at B
  have hA : ((buck1_pre_process_callback L0 { r1 with BUCK1_Vout_get_result := 400 } s0
        ).vars.buck_state = s0.vars.buck_state ∧
      (buck1_pre_process_callback L0 { r1 with BUCK1_Vout_get_result := 400 } s0).log
        = s0.log) :=
    A.2 (by norm_num [moving_average, AVERAGING_SAMPLES, L0, s0, r1])
  have hB : ((buck2_pre_process_callback L0
        { r2 with BUCK2_Vout_get_result := 0, BUCK2_targ := 100 } s0
        ).vars.buck_state = s0.vars.buck_state ∧
      (buck2_pre_process_callback L0
        { r2 with BUCK2_Vout_get_result := 0, BUCK2_targ := 100 } s0).log = s0.log) :=
    B.2 (by norm_num [moving_average, AVERAGING_SAMPLES, L0, s0, r2])
  refine ⟨⟨A.1.mpr ?_, ?_, hA.1, hA.2⟩, ⟨B.1.mpr ?_, ?_, hB.1, hB.2⟩⟩
  · norm_num [moving_average, AVERAGING_SAMPLES, s0, r1]
  · rw [a1]
    norm_num [moving_average, AVERAGING_SAMPLES, s0, r1]
  · norm_num [moving_average, AVERAGING_SAMPLES, s0, r2]
  · rw [b1]
    norm_num [moving_average, AVERAGING_SAMPLES, s0, r2]

/-- C10: for `buck2_pre_process_callback`, from every prior state and with
every raw sample, the resulting `buck_state` is FAULT exactly when it was FAULT
already, or the updated `buck2_iout_avg` is above `BUCK2_Iout_MAX`, or the
updated `buck2_temp_avg` is above `BUCK2_Temp_MAX`, or the latch
`buck2_enable_protection` was true at entry and the updated `buck2_vout_avg` is
outside `[BUCK2_Vout_MIN, BUCK2_Vout_MAX]`. The shared `vin_avg` plays no part
and is not written: whatever `vin_avg` is (below `BUCK1_Vin_MIN` included), with
buck2 readings nominal a `buck_state` other than FAULT and the log are left as
they were; whereas a `buck1_pre_process_callback` that leaves `vin_avg` below
`BUCK1_Vin_MIN` sets FAULT, and FAULT still holds after a
`buck2_pre_process_callback` that follows. -/
theorem C10_buck2_fault_iff (L : Limits) (q1 : Buck1Read) (q2 : Buck2Read) (s : State) :
    ((buck2_pre_process_callback L q2 s).vars.buck_state = Ifx_BUCK_STATE_FAULT ↔
      (s.vars.buck_state = Ifx_BUCK_STATE_FAULT ∨
        (buck2_pre_process_callback L q2 s).vars.buck2_iout_avg > L.BUCK2_Iout_MAX ∨
        (buck2_pre_process_callback L q2 s).vars.buck2_temp_avg > L.BUCK2_Temp_MAX ∨
        (s.vars.buck2_enable_protection = c_true ∧
          ((buck2_pre_process_callback L q2 s).vars.buck2_vout_avg < L.BUCK2_Vout_MIN ∨
            (buck2_pre_process_callback L q2 s).vars.buck2_vout_avg > L.BUCK2_Vout_MAX)))) ∧
    (buck2_pre_process_callback L q2 s).vars.vin_avg = s.vars.vin_avg ∧
    (s.vars.vin_avg < L.BUCK1_Vin_MIN →
      s.vars.buck_state ≠ Ifx_BUCK_STATE_FAULT →
      (buck2_pre_process_callback L q2 s).vars.buck2_iout_avg ≤ L.BUCK2_Iout_MAX →
      (buck2_pre_process_callback L q2 s).vars.buck2_temp_avg ≤ L.BUCK2_Temp_MAX →
      (s.vars.buck2_enable_protection = c_true →
        L.BUCK2_Vout_MIN ≤ (buck2_pre_process_callback L q2 s).vars.buck2_vout_avg ∧
        (buck2_pre_process_callback L q2 s).vars.buck2_vout_avg ≤ L.BUCK2_Vout_MAX) →
      (buck2_pre_process_callback L q2 s).vars.buck_state = s.vars.buck_state ∧
      (buck2_pre_process_callback L q2 s).log = s.log) ∧
    ((buck1_pre_process_callback L q1 s).vars.vin_avg < L.BUCK1_Vin_MIN →
      (buck1_pre_process_callback L q1 s).vars.buck_state = Ifx_BUCK_STATE_FAULT ∧
      (buck2_pre_process_callback L q2
        (buck1_pre_process_callback L q1 s)).vars.buck_state = Ifx_BUCK_STATE_FAULT) := by
  obtain ⟨e1, e2⟩ := buck2_callback_effect L q2 s
  refine ⟨?_, ?_, ?_, ?_⟩
  · rw [e1]
    split_ifs with h
    · simp only [true_iff]
      rcases h with (h | h) | h
      · exact Or.inr (Or.inl h)
      · exact Or.inr (Or.inr (Or.inl h))
      · exact Or.inr (Or.inr (Or.inr h))
    · constructor
      · intro hs
        exact Or.inl hs
      · rintro (hs | h1 | h1 | h1)
        · exact hs
        · exact absurd (Or.inl (Or.inl h1)) h
        · exact absurd (Or.inl (Or.inr h1)) h
        · exact absurd (Or.inr h1) h
  · simp only [buck2_pre_process_callback, buck2_check_vout, buck2_check_range,
      buck2_average, buck2_read]
    split_ifs <;> rfl
  · intro _ _ h3 h4 h5
    have hR : ¬ ((buck2_pre_process_callback L q2 s).vars.buck2_iout_avg > L.BUCK2_Iout_MAX ∨
        (buck2_pre_process_callback L q2 s).vars.buck2_temp_avg > L.BUCK2_Temp_MAX) := by
      rintro (h | h)
      · exact absurd h (not_lt.mpr h3)
      · exact absurd h (not_lt.mpr h4)
    have hV : ¬ (s.vars.buck2_enable_protection = c_true ∧
        ((buck2_pre_process_callback L q2 s).vars.buck2_vout_avg < L.BUCK2_Vout_MIN ∨
          (buck2_pre_process_callback L q2 s).vars.buck2_vout_avg > L.BUCK2_Vout_MAX)) := by
      rintro ⟨ha, h | h⟩
      · exact absurd h (not_lt.mpr (h5 ha).1)
      · exact absurd h (not_lt.mpr (h5 ha).2)
    rw [e1, e2, if_neg (not_or.mpr ⟨hR, hV⟩), if_neg hR, if_neg hV]
    simp
  · intro h
    have hf : (buck1_pre_process_callback L q1 s).vars.buck_state = Ifx_BUCK_STATE_FAULT := by
      rw [(buck1_callback_effect L q1 s).1]
      rw [if_pos (Or.inl (Or.inl h))]
    exact ⟨hf, Op.apply_fault_of_fault L (Op.buck2 q2) _ hf⟩

/-- C10 at concrete inputs: from `s0` with `vin_avg` put at 1000, below
`BUCK1_Vin_MIN` = 1500, nominal buck2 readings leave RUN and the empty log in
place; from `s0` with `vin_avg` at 1510 a raw input voltage of 0 on buck1
brings `vin_avg` to 1321.25, below 1500, so buck1 faults and a nominal buck2
callback afterwards is still in FAULT. -/
theorem C10_buck2_fault_iff_witness :
    ((buck2_pre_process_callback L0 r2
        { s0 with vars := { s0.vars with vin_avg := 1000 } }).vars.buck_state
        = Ifx_BUCK_STATE_RUN ∧
      (buck2_pre_process_callback L0 r2
        { s0 with vars := { s0.vars with vin_avg := 1000 } }).log = []) ∧
    ((buck1_pre_process_callback L0 { r1 with BUCK1_Vin_get_result := 0 }
        { s0 with vars := { s0.vars with vin_avg := 1510 } }).vars.buck_state
        = Ifx_BUCK_STATE_FAULT ∧
      (buck2_pre_process_callback L0 r2
        (buck1_pre_process_callback L0 { r1 with BUCK1_Vin_get_result := 0 }
          { s0 with vars := { s0.vars with vin_avg := 1510 } })
        ).vars.buck_state = Ifx_BUCK_STATE_FAULT) :=
  ⟨(C10_buck2_fault_iff L0 r1 r2
        { s0 with vars := { s0.vars with vin_avg := 1000 } }).2.2.1
      (by norm_num [L0])
      (by decide)
      (by rw [(buck2_callback_avgs _ _ _).2.1]
          norm_num [moving_average, AVERAGING_SAMPLES, L0, s0, r2])
      (by rw [(buck2_callback_avgs _ _ _).2.2]
          norm_num [moving_average, AVERAGING_SAMPLES, L0, s0, r2])
      (fun h => absurd h (by decide)),
    (C10_buck2_fault_iff L0 { r1 with BUCK1_Vin_get_result := 0 } r2
        { s0 with vars := { s0.vars with vin_avg := 1510 } }).2.2.2
      (by rw [(buck1_callback_avgs _ _ _).2.2.2]
          norm_num [moving_average, AVERAGING_SAMPLES, L0, s0, r1])⟩

/-- C11: no cross-channel mutation. `buck1_pre_process_callback` leaves the
three buck2 averages, the three buck2 raw-sample variables and
`buck2_enable_protection` unchanged; `buck2_pre_process_callback` leaves the
three buck1 averages, `vin_avg`, `vin_adc_res`, the three buck1 raw-sample
variables and `buck1_enable_protection` unchanged; `fault_processing` changes
no variable other than `buck_state`. -/
theorem C11_no_cross_channel_mutation (L : Limits) (q1 : Buck1Read) (q2 : Buck2Read)
    (s : State) :
    ((buck1_pre_process_callback L q1 s).vars.buck2_vout_avg = s.vars.buck2_vout_avg ∧
      (buck1_pre_process_callback L q1 s).vars.buck2_iout_avg = s.vars.buck2_iout_avg ∧
      (buck1_pre_process_callback L q1 s).vars.buck2_temp_avg = s.vars.buck2_temp_avg ∧
      (buck1_pre_process_callback L q1 s).vars.buck2_vout_adc_res
        = s.vars.buck2_vout_adc_res ∧
      (buck1_pre_process_callback L q1 s).vars.buck2_iout_adc_res
        = s.vars.buck2_iout_adc_res ∧
      (buck1_pre_process_callback L q1 s).vars.buck2_temp_adc_res
        = s.vars.buck2_temp_adc_res ∧
      (buck1_pre_process_callback L q1 s).vars.buck2_enable_protection
        = s.vars.buck2_enable_protection) ∧
    ((buck2_pre_process_callback L q2 s).vars.buck1_vout_avg = s.vars.buck1_vout_avg ∧
      (buck2_pre_process_callback L q2 s).vars.buck1_iout_avg = s.vars.buck1_iout_avg ∧
      (buck2_pre_process_callback L q2 s).vars.buck1_temp_avg = s.vars.buck1_temp_avg ∧
      (buck2_pre_process_callback L q2 s).vars.vin_avg = s.vars.vin_avg ∧
      (buck2_pre_process_callback L q2 s).vars.vin_adc_res = s.vars.vin_adc_res ∧
      (buck2_pre_process_callback L q2 s).vars.buck1_vout_adc_res
        = s.vars.buck1_vout_adc_res ∧
      (buck2_pre_process_callback L q2 s).vars.buck1_iout_adc_res
        = s.vars.buck1_iout_adc_res ∧
      (buck2_pre_process_callback L q2 s).vars.buck1_temp_adc_res
        = s.vars.buck1_temp_adc_res ∧
      (buck2_pre_process_callback L q2 s).vars.buck1_enable_protection
        = s.vars.buck1_enable_protection) ∧
    (fault_processing s).vars = { s.vars with buck_state := (fault_processing s).vars.buck_state }
    := by
  refine ⟨?_, ?_, rfl⟩
  · simp only [buck1_pre_process_callback, buck1_check_vout, buck1_check_range,
      buck1_average, buck1_read]
    split_ifs <;> exact ⟨rfl, rfl, rfl, rfl, rfl, rfl, rfl⟩
  · simp only [buck2_pre_process_callback, buck2_check_vout, buck2_check_range,
      buck2_average, buck2_read]
    split_ifs <;> exact ⟨rfl, rfl, rfl, rfl, rfl, rfl, rfl, rfl, rfl⟩

/-- C12: arming scenario. With target 200, `Vout_MIN` = 190, `Vout_MAX` = 210,
the output-voltage average starting at 0, the latch false, `buck_state` not
FAULT, the raw output voltage held at 205 and the other averages and raw
samples within their limits, after `k` consecutive calls of the channel
callback, for every `k`: the average is `205 * (1 - (7/8)^k)`, it is at most
200 exactly for `k` < 28, the latch is false while the average is at most 200
and true once it is above 200, that is exactly from call 28 on, from call 28
on the average is within `[190, 210]`, and `buck_state` is unchanged (so not
FAULT) and no command is issued. -/
theorem C12_arming_scenario (L : Limits) (q1 : Buck1Read) (q2 : Buck2Read)
    (s : State) (k : Nat) :
    (L.BUCK1_Vout_MIN = 190 → L.BUCK1_Vout_MAX = 210 → q1.BUCK1_targ = 200 →
      q1.BUCK1_Vout_get_result = 205 → s.vars.buck1_vout_avg = 0 →
      s.vars.buck1_enable_protection = c_false →
      s.vars.buck_state ≠ Ifx_BUCK_STATE_FAULT →
      vin_within L q1 s → buck1_iout_within L q1 s → buck1_temp_within L q1 s →
      (run L (List.replicate k (Op.buck1 q1)) s).vars.buck1_vout_avg
        = 205 * (1 - (7 / 8) ^ k) ∧
      ((run L (List.replicate k (Op.buck1 q1)) s).vars.buck1_vout_avg ≤ 200 ↔ k < 28) ∧
      ((run L (List.replicate k (Op.buck1 q1)) s).vars.buck1_vout_avg ≤ 200 →
        (run L (List.replicate k (Op.buck1 q1)) s).vars.buck1_enable_protection
          = c_false) ∧
      ((run L (List.replicate k (Op.buck1 q1)) s).vars.buck1_vout_avg > 200 →
        (run L (List.replicate k (Op.buck1 q1)) s).vars.buck1_enable_protection
          = c_true) ∧
      ((run L (List.replicate k (Op.buck1 q1)) s).vars.buck1_enable_protection = c_true
        ↔ 28 ≤ k) ∧
      (28 ≤ k →
        190 ≤ (run L (List.replicate k (Op.buck1 q1)) s).vars.buck1_vout_avg ∧
        (run L (List.replicate k (Op.buck1 q1)) s).vars.buck1_vout_avg ≤ 210) ∧
      (run L (List.replicate k (Op.buck1 q1)) s).vars.buck_state = s.vars.buck_state ∧
      (run L (List.replicate k (Op.buck1 q1)) s).vars.buck_state ≠ Ifx_BUCK_STATE_FAULT ∧
      (run L (List.replicate k (Op.buck1 q1)) s).log = s.log) ∧
    (L.BUCK2_Vout_MIN = 190 → L.BUCK2_Vout_MAX = 210 → q2.BUCK2_targ = 200 →
      q2.BUCK2_Vout_get_result = 205 → s.vars.buck2_vout_avg = 0 →
      s.vars.buck2_enable_protection = c_false →
      s.vars.buck_state ≠ Ifx_BUCK_STATE_FAULT →
      buck2_iout_within L q2 s → buck2_temp_within L q2 s →
      (run L (List.replicate k (Op.buck2 q2)) s).vars.buck2_vout_avg
        = 205 * (1 - (7 / 8) ^ k) ∧
      ((run L (List.replicate k (Op.buck2 q2)) s).vars.buck2_vout_avg ≤ 200 ↔ k < 28) ∧
      ((run L (List.replicate k (Op.buck2 q2)) s).vars.buck2_vout_avg ≤ 200 →
        (run L (List.replicate k (Op.buck2 q2)) s).vars.buck2_enable_protection
          = c_false) ∧
      ((run L (List.replicate k (Op.buck2 q2)) s).vars.buck2_vout_avg > 200 →
        (run L (List.replicate k (Op.buck2 q2)) s).vars.buck2_enable_protection
          = c_true) ∧
      ((run L (List.replicate k (Op.buck2 q2)) s).vars.buck2_enable_protection = c_true
        ↔ 28 ≤ k) ∧
      (28 ≤ k →
        190 ≤ (run L (List.replicate k (Op.buck2 q2)) s).vars.buck2_vout_avg ∧
        (run L (List.replicate k (Op.buck2 q2)) s).vars.buck2_vout_avg ≤ 210) ∧
      (run L (List.replicate k (Op.buck2 q2)) s).vars.buck_state = s.vars.buck_state ∧
      (run L (List.replicate k (Op.buck2 q2)) s).vars.buck_state ≠ Ifx_BUCK_STATE_FAULT ∧
      (run L (List.replicate k (Op.buck2 q2)) s).log = s.log) := by
  have hne : c_false ≠ c_true := by decide
  have hclosed : avg_after 205 k 0 = 205 * (1 - (7 / 8) ^ k) := by
    rw [avg_after_zero_closed]
    norm_num
  have hiff : avg_after 205 k 0 ≤ 200 ↔ k < 28 := by
    rw [← not_lt, ramp_205_above_200]
    omega
  have hband : 28 ≤ k → 190 ≤ avg_after 205 k 0 ∧ avg_after 205 k 0 ≤ 210 := by
    intro hk
    have h1 := (ramp_205_above_200 k).mpr hk
    have h2 := ramp_205_le k
    constructor <;> linarith
  constructor
  · intro hmin hmax htarg hx h0 hl hs hvin hiout htemp
    obtain ⟨l1, l2, l3⟩ := buck1_arming_run L q1 s hmin hmax htarg hx h0 hl hvin hiout htemp k
    have havg := (run_buck1_avgs L q1 k s).1
    rw [hx, h0] at havg
    rw [havg, l1]
    refine ⟨hclosed, hiff, ?_, ?_, ?_, hband, l2, by rw [l2]; exact hs, l3⟩
    · intro h
      rw [if_neg (by have := hiff.mp h; omega)]
    · intro h
      rw [if_pos ((ramp_205_above_200 k).mp h)]
    · by_cases hk : 28 ≤ k
      · simp [hk]
      · simp [hk, hne]
  · intro hmin hmax htarg hx h0 hl hs hiout htemp
    obtain ⟨l1, l2, l3⟩ := buck2_arming_run L q2 s hmin hmax htarg hx h0 hl hiout htemp k
    have havg := (run_buck2_avgs L q2 k s).1
    rw [hx, h0] at havg
    rw [havg, l1]
    refine ⟨hclosed, hiff, ?_, ?_, ?_, hband, l2, by rw [l2]; exact hs, l3⟩
    · intro h
      rw [if_neg (by have := hiff.mp h; omega)]
    · intro h
      rw [if_pos ((ramp_205_above_200 k).mp h)]
    · by_cases hk : 28 ≤ k
      · simp [hk]
      · simp [hk, hne]

/-- C12 at concrete inputs: under `L0` (output voltage limits 190 and 210),
from `s0_zero_vout` with the raw output voltage held at 205 and target 200,
the latch of either channel is false after 27 calls and true after 28, with
`buck_state` still RUN and the log empty after 28 calls. -/
theorem C12_arming_scenario_witness :
    ((run L0 (List.replicate 27 (Op.buck1
        { r1 with BUCK1_Vout_get_result := 205, BUCK1_targ := 200 }))
        s0_zero_vout).vars.buck1_enable_protection ≠ c_true ∧
      (run L0 (List.replicate 28 (Op.buck1
        { r1 with BUCK1_Vout_get_result := 205, BUCK1_targ := 200 }))
        s0_zero_vout).vars.buck1_enable_protection = c_true ∧
      (run L0 (List.replicate 28 (Op.buck1
        { r1 with BUCK1_Vout_get_result := 205, BUCK1_targ := 200 }))
        s0_zero_vout).vars.buck_state = Ifx_BUCK_STATE_RUN ∧
      (run L0 (List.replicate 28 (Op.buck1
        { r1 with BUCK1_Vout_get_result := 205, BUCK1_targ := 200 }))
        s0_zero_vout).log = []) ∧
    ((run L0 (List.replicate 27 (Op.buck2
        { r2 with BUCK2_Vout_get_result := 205, BUCK2_targ := 200 }))
        s0_zero_vout).vars.buck2_enable_protection ≠ c_true ∧
      (run L0 (List.replicate 28 (Op.buck2
        { r2 with BUCK2_Vout_get_result := 205, BUCK2_targ := 200 }))
        s0_zero_vout).vars.buck2_enable_protection = c_true ∧
      (run L0 (List.replicate 28 (Op.buck2
        { r2 with BUCK2_Vout_get_result := 205, BUCK2_targ := 200 }))
        s0_zero_vout).vars.buck_state = Ifx_BUCK_STATE_RUN ∧
      (run L0 (List.replicate 28 (Op.buck2
        { r2 with BUCK2_Vout_get_result := 205, BUCK2_targ := 200 }))
        s0_zero_vout).log = []) := by
  have A := fun k => (C12_arming_scenario L0
    { r1 with BUCK1_Vout_get_result := 205, BUCK1_targ := 200 }
    { r2 with BUCK2_Vout_get_result := 205, BUCK2_targ := 200 } s0_zero_vout k).1
    rfl rfl rfl rfl rfl rfl (by decide)
    (by norm_num [vin_within, L0, s0, s0_zero_vout, r1])
    (by norm_num [buck1_iout_within, L0, s0, s0_zero_vout, r1])
    (by norm_num [buck1_temp_within, L0, s0, s0_zero_vout, r1])
  have B := fun k => (C12_arming_scenario L0
    { r1 with BUCK1_Vout_get_result := 205, BUCK1_targ := 200 }
    { r2 with BUCK2_Vout_get_result := 205, BUCK2_targ := 200 } s0_zero_vout k).2
    rfl rfl rfl rfl rfl rfl (by decide)
    (by norm_num [buck2_iout_within, L0, s0, s0_zero_vout, r2])
    (by norm_num [buck2_temp_within, L0, s0, s0_zero_vout, r2])
  have a28 := A 28
  have b28 := B 28
  exact ⟨⟨fun h => absurd ((A 27).2.2.2.2.1.mp h) (by decide),
      a28.2.2.2.2.1.mpr (le_refl _), a28.2.2.2.2.2.2.1, a28.2.2.2.2.2.2.2.2⟩,
    ⟨fun h => absurd ((B 27).2.2.2.2.1.mp h) (by decide),
      b28.2.2.2.2.1.mpr (le_refl _), b28.2.2.2.2.2.2.1, b28.2.2.2.2.2.2.2.2⟩⟩

/-- C13 fails as stated: under `L0`, whose `BUCK1_Iout_MAX` is 5, from the
nominal state `s0` with the current average put at 0, one call of
`buck1_pre_process_callback` reading a raw current of 6 leaves the current
average at 3/4 and does not set FAULT. -/
theorem C13_counterexample :
    L0.BUCK1_Iout_MAX = 5 ∧
    (buck1_pre_process_callback L0 { r1 with BUCK1_Iout_get_result := 6 }
      { s0 with vars := { s0.vars with buck1_iout_avg := 0 } }).vars.buck1_iout_avg = 3 / 4 ∧
    ¬ ((buck1_pre_process_callback L0 { r1 with BUCK1_Iout_get_result := 6 }
      { s0 with vars := { s0.vars with buck1_iout_avg := 0 } }).vars.buck_state
        = Ifx_BUCK_STATE_FAULT) := by
  refine ⟨rfl, ?_, ?_⟩
  · rw [(buck1_callback_avgs _ _ _).2.1]
    norm_num [moving_average, AVERAGING_SAMPLES]
  · rw [(buck1_callback_quiet L0 { r1 with BUCK1_Iout_get_result := 6 }
      { s0 with vars := { s0.vars with buck1_iout_avg := 0 } }
      (by norm_num [moving_average, AVERAGING_SAMPLES, L0, s0, r1])
      (by norm_num [moving_average, AVERAGING_SAMPLES, L0, s0, r1, c_true])).1]
    decide

/-- C13, amended: with `Iout_MAX` = 5, the current average starting at 0,
`buck_state` not FAULT and the other averages and raw samples within their
limits, one call of a callback reading a raw current of 6 leaves the current
average at 6/8 = 3/4, `buck_state` unchanged (so not FAULT) and issues no
command; such a single call sets FAULT exactly when the raw current is above
8 * 5 = 40. -/
theorem C13_over_current_single_cycle (L : Limits) (q1 : Buck1Read) (q2 : Buck2Read)
    (s : State) :
    (L.BUCK1_Iout_MAX = 5 → s.vars.buck1_iout_avg = 0 →
      s.vars.buck_state ≠ Ifx_BUCK_STATE_FAULT →
      vin_within L q1 s → buck1_temp_within L q1 s → buck1_vout_within L q1 s →
      (q1.BUCK1_Iout_get_result = 6 →
        (buck1_pre_process_callback L q1 s).vars.buck1_iout_avg = 3 / 4 ∧
        (buck1_pre_process_callback L q1 s).vars.buck_state = s.vars.buck_state ∧
        (buck1_pre_process_callback L q1 s).vars.buck_state ≠ Ifx_BUCK_STATE_FAULT ∧
        (buck1_pre_process_callback L q1 s).log = s.log) ∧
      ((buck1_pre_process_callback L q1 s).vars.buck_state = Ifx_BUCK_STATE_FAULT ↔
        q1.BUCK1_Iout_get_result > 40)) ∧
    (L.BUCK2_Iout_MAX = 5 → s.vars.buck2_iout_avg = 0 →
      s.vars.buck_state ≠ Ifx_BUCK_STATE_FAULT →
      buck2_temp_within L q2 s → buck2_vout_within L q2 s →
      (q2.BUCK2_Iout_get_result = 6 →
        (buck2_pre_process_callback L q2 s).vars.buck2_iout_avg = 3 / 4 ∧
        (buck2_pre_process_callback L q2 s).vars.buck_state = s.vars.buck_state ∧
        (buck2_pre_process_callback L q2 s).vars.buck_state ≠ Ifx_BUCK_STATE_FAULT ∧
        (buck2_pre_process_callback L q2 s).log = s.log) ∧
      ((buck2_pre_process_callback L q2 s).vars.buck_state = Ifx_BUCK_STATE_FAULT ↔
        q2.BUCK2_Iout_get_result > 40)) := by
  constructor
  · intro hmax h0 hs hvin htemp hvout
    have hi : (buck1_pre_process_callback L q1 s).vars.buck1_iout_avg
        = q1.BUCK1_Iout_get_result / 8 := by
      rw [(buck1_callback_avgs L q1 s).2.1, moving_average_eq, h0]
      ring
    have hq : q1.BUCK1_Iout_get_result ≤ 40 →
        (buck1_pre_process_callback L q1 s).vars.buck_state = s.vars.buck_state ∧
        (buck1_pre_process_callback L q1 s).log = s.log := by
      intro hle
      have h1 := run_buck1_quiet_of_within L q1 s 1 hvin htemp hvout (by
        intro j hj
        have hj0 : j = 0 := by omega
        subst hj0
        rw [hmax, h0]
        simp only [avg_after]
        rw [moving_average_eq]
        linarith)
      exact h1
    constructor
    · intro h6
      have h := hq (by rw [h6]; norm_num)
      refine ⟨by rw [hi, h6]; norm_num, h.1, by rw [h.1]; exact hs, h.2⟩
    · constructor
      · intro hf
        by_contra hle
        exact hs ((hq (not_lt.mp hle)).1 ▸ hf)
      · intro hgt
        have h1 := run_buck1_current_fault L q1 s 0 hvout (by
          rw [hmax, h0]
          simp only [avg_after]
          rw [moving_average_eq]
          linarith)
        exact h1.1
  · intro hmax h0 hs htemp hvout
    have hi : (buck2_pre_process_callback L q2 s).vars.buck2_iout_avg
        = q2.BUCK2_Iout_get_result / 8 := by
      rw [(buck2_callback_avgs L q2 s).2.1, moving_average_eq, h0]
      ring
    have hq : q2.BUCK2_Iout_get_result ≤ 40 →
        (buck2_pre_process_callback L q2 s).vars.buck_state = s.vars.buck_state ∧
        (buck2_pre_process_callback L q2 s).log = s.log := by
      intro hle
      have h1 := run_buck2_quiet_of_within L q2 s 1 htemp hvout (by
        intro j hj
        have hj0 : j = 0 := by omega
        subst hj0
        rw [hmax, h0]
        simp only [avg_after]
        rw [moving_average_eq]
        linarith)
      exact h1
    constructor
    · intro h6
      have h := hq (by rw [h6]; norm_num)
      refine ⟨by rw [hi, h6]; norm_num, h.1, by rw [h.1]; exact hs, h.2⟩
    · constructor
      · intro hf
        by_contra hle
        exact hs ((hq (not_lt.mp hle)).1 ▸ hf)
      · intro hgt
        have h1 := run_buck2_current_fault L q2 s 0 hvout (by
          rw [hmax, h0]
          simp only [avg_after]
          rw [moving_average_eq]
          linarith)
        exact h1.1

/-- C13 amended, at concrete inputs: under `L0`, from `s0_zero_current`, a raw
current of 6 on either channel leaves RUN and the empty log in place, and a
raw current of 41 sets FAULT in one call. -/
theorem C13_over_current_single_cycle_witness :
    ((buck1_pre_process_callback L0 { r1 with BUCK1_Iout_get_result := 6 }
        s0_zero_current).vars.buck_state = Ifx_BUCK_STATE_RUN ∧
      (buck1_pre_process_callback L0 { r1 with BUCK1_Iout_get_result := 6 }
        s0_zero_current).log = [] ∧
      (buck1_pre_process_callback L0 { r1 with BUCK1_Iout_get_result := 41 }
        s0_zero_current).vars.buck_state = Ifx_BUCK_STATE_FAULT) ∧
    ((buck2_pre_process_callback L0 { r2 with BUCK2_Iout_get_result := 6 }
        s0_zero_current).vars.buck_state = Ifx_BUCK_STATE_RUN ∧
      (buck2_pre_process_callback L0 { r2 with BUCK2_Iout_get_result := 6 }
        s0_zero_current).log = [] ∧
      (buck2_pre_process_callback L0 { r2 with BUCK2_Iout_get_result := 41 }
        s0_zero_current).vars.buck_state = Ifx_BUCK_STATE_FAULT) := by
  have A := fun x => (C13_over_current_single_cycle L0 { r1 with BUCK1_Iout_get_result := x }
    r2 s0_zero_current).1 rfl rfl (by decide)
    (by norm_num [vin_within, L0, s0, s0_zero_current, r1])
    (by norm_num [buck1_temp_within, L0, s0, s0_zero_current, r1])
    (by norm_num [buck1_vout_within, L0, s0, s0_zero_current, r1])
  have B := fun x => (C13_over_current_single_cycle L0 r1
    { r2 with BUCK2_Iout_get_result := x } s0_zero_current).2 rfl rfl (by decide)
    (by norm_num [buck2_temp_within, L0, s0, s0_zero_current, r2])
    (by norm_num [buck2_vout_within, L0, s0, s0_zero_current, r2])
  have a6 := (A 6).1 rfl
  have b6 := (B 6).1 rfl
  exact ⟨⟨a6.2.1, a6.2.2.2, (A 41).2.mpr (by norm_num)⟩,
    ⟨b6.2.1, b6.2.2.2, (B 41).2.mpr (by norm_num)⟩⟩

/-- C14: averaged-then-compared. The over-current check reads the updated
average, not the raw sample: from a current average of 0 one update with the
raw value 6 gives exactly 6/8 = 3/4, after `k` updates the average is
`6 * (1 - (7/8)^k)`, and it is above 5 exactly from `k` = 14 on. With
`Iout_MAX` = 5, `buck_state` not FAULT and the other averages and raw samples
within their limits, a run of `k` calls of a callback with the raw current
held at 6 leaves `buck_state` and the log unchanged for every `k` up to 13, and
the check fires on call 14: the log after 14 calls holds one shutdown
sequence and `buck_state` is FAULT from then on. -/
theorem C14_averaged_then_compared (L : Limits) (q1 : Buck1Read) (q2 : Buck2Read)
    (s : State) (k : Nat) :
    avg_after 6 1 0 = 3 / 4 ∧
    avg_after 6 k 0 = 6 * (1 - (7 / 8) ^ k) ∧
    (5 < avg_after 6 k 0 ↔ 14 ≤ k) ∧
    (L.BUCK1_Iout_MAX = 5 → s.vars.buck1_iout_avg = 0 → q1.BUCK1_Iout_get_result = 6 →
      s.vars.buck_state ≠ Ifx_BUCK_STATE_FAULT →
      vin_within L q1 s → buck1_temp_within L q1 s → buck1_vout_within L q1 s →
      (buck1_pre_process_callback L q1 s).vars.buck1_iout_avg = 3 / 4 ∧
      (run L (List.replicate k (Op.buck1 q1)) s).vars.buck1_iout_avg
        = 6 * (1 - (7 / 8) ^ k) ∧
      ((run L (List.replicate k (Op.buck1 q1)) s).vars.buck1_iout_avg > L.BUCK1_Iout_MAX
        ↔ 14 ≤ k) ∧
      (k ≤ 13 →
        (run L (List.replicate k (Op.buck1 q1)) s).vars.buck_state = s.vars.buck_state ∧
        (run L (List.replicate k (Op.buck1 q1)) s).log = s.log) ∧
      (run L (List.replicate 14 (Op.buck1 q1)) s).log = s.log ++ shutdown_sequence ∧
      (14 ≤ k →
        (run L (List.replicate k (Op.buck1 q1)) s).vars.buck_state
          = Ifx_BUCK_STATE_FAULT)) ∧
    (L.BUCK2_Iout_MAX = 5 → s.vars.buck2_iout_avg = 0 → q2.BUCK2_Iout_get_result = 6 →
      s.vars.buck_state ≠ Ifx_BUCK_STATE_FAULT →
      buck2_temp_within L q2 s → buck2_vout_within L q2 s →
      (buck2_pre_process_callback L q2 s).vars.buck2_iout_avg = 3 / 4 ∧
      (run L (List.replicate k (Op.buck2 q2)) s).vars.buck2_iout_avg
        = 6 * (1 - (7 / 8) ^ k) ∧
      ((run L (List.replicate k (Op.buck2 q2)) s).vars.buck2_iout_avg > L.BUCK2_Iout_MAX
        ↔ 14 ≤ k) ∧
      (k ≤ 13 →
        (run L (List.replicate k (Op.buck2 q2)) s).vars.buck_state = s.vars.buck_state ∧
        (run L (List.replicate k (Op.buck2 q2)) s).log = s.log) ∧
      (run L (List.replicate 14 (Op.buck2 q2)) s).log = s.log ++ shutdown_sequence ∧
      (14 ≤ k →
        (run L (List.replicate k (Op.buck2 q2)) s).vars.buck_state
          = Ifx_BUCK_STATE_FAULT)) := by
  have hclosed : ∀ j : Nat, avg_after 6 j 0 = 6 * (1 - (7 / 8) ^ j) := by
    intro j
    rw [avg_after_zero_closed]
    norm_num
  have hone : avg_after 6 1 0 = 3 / 4 := by
    rw [hclosed]
    norm_num
  have hle : ∀ j : Nat, j < 13 → avg_after 6 (j + 1) 0 ≤ 5 := by
    intro j hj
    have : ¬ (5 < avg_after 6 (j + 1) 0) :=
      fun h => absurd ((ramp_six_above_five (j + 1)).mp h) (by omega)
    exact not_lt.mp this
  refine ⟨hone, hclosed k, ramp_six_above_five k, ?_, ?_⟩
  · intro hmax h0 h6 _ hvin htemp hvout
    have hi : ∀ j, j < 13 →
        avg_after q1.BUCK1_Iout_get_result (j + 1) s.vars.buck1_iout_avg
          ≤ L.BUCK1_Iout_MAX := by
      intro j hj
      rw [h6, h0, hmax]
      exact hle j hj
    have hq13 := run_buck1_quiet_of_within L q1 s 13 hvin htemp hvout hi
    have hf14 := run_buck1_current_fault L q1 s 13 hvout (by
      rw [h6, h0, hmax]
      exact (ramp_six_above_five 14).mpr (le_refl _))
    have havg := (run_buck1_avgs L q1 k s).2.1
    rw [h6, h0] at havg
    refine ⟨?_, ?_, ?_, ?_, ?_, ?_⟩
    · rw [(buck1_callback_avgs L q1 s).2.1, h6, h0]
      exact hone
    · rw [havg]
      exact hclosed k
    · rw [havg, hmax]
      exact ramp_six_above_five k
    · intro hk
      exact run_buck1_quiet_of_within L q1 s k hvin htemp hvout
        (fun j hj => hi j (by omega))
    · rw [hf14.2, hq13.2]
    · intro hk
      exact run_replicate_fault_of_le L (Op.buck1 q1) s 14 k hk hf14.1
  · intro hmax h0 h6 _ htemp hvout
    have hi : ∀ j, j < 13 →
        avg_after q2.BUCK2_Iout_get_result (j + 1) s.vars.buck2_iout_avg
          ≤ L.BUCK2_Iout_MAX := by
      intro j hj
      rw [h6, h0, hmax]
      exact hle j hj
    have hq13 := run_buck2_quiet_of_within L q2 s 13 htemp hvout hi
    have hf14 := run_buck2_current_fault L q2 s 13 hvout (by
      rw [h6, h0, hmax]
      exact (ramp_six_above_five 14).mpr (le_refl _))
    have havg := (run_buck2_avgs L q2 k s).2.1
    rw [h6, h0] at havg
    refine ⟨?_, ?_, ?_, ?_, ?_, ?_⟩
    · rw [(buck2_callback_avgs L q2 s).2.1, h6, h0]
      exact hone
    · rw [havg]
      exact hclosed k
    · rw [havg, hmax]
      exact ramp_six_above_five k
    · intro hk
      exact run_buck2_quiet_of_within L q2 s k htemp hvout
        (fun j hj => hi j (by omega))
    · rw [hf14.2, hq13.2]
    · intro hk
      exact run_replicate_fault_of_le L (Op.buck2 q2) s 14 k hk hf14.1

/-- C14 at concrete inputs: under `L0`, from `s0_zero_current` with the raw
current held at 6, after 13 calls of either callback `buck_state` is still RUN
and the log empty; after 14 calls it is FAULT. -/
theorem C14_averaged_then_compared_witness :
    ((run L0 (List.replicate 13 (Op.buck1 { r1 with BUCK1_Iout_get_result := 6 }))
        s0_zero_current).vars.buck_state = Ifx_BUCK_STATE_RUN ∧
      (run L0 (List.replicate 13 (Op.buck1 { r1 with BUCK1_Iout_get_result := 6 }))
        s0_zero_current).log = [] ∧
      (run L0 (List.replicate 14 (Op.buck1 { r1 with BUCK1_Iout_get_result := 6 }))
        s0_zero_current).vars.buck_state = Ifx_BUCK_STATE_FAULT) ∧
    ((run L0 (List.replicate 13 (Op.buck2 { r2 with BUCK2_Iout_get_result := 6 }))
        s0_zero_current).vars.buck_state = Ifx_BUCK_STATE_RUN ∧
      (run L0 (List.replicate 13 (Op.buck2 { r2 with BUCK2_Iout_get_result := 6 }))
        s0_zero_current).log = [] ∧
      (run L0 (List.replicate 14 (Op.buck2 { r2 with BUCK2_Iout_get_result := 6 }))
        s0_zero_current).vars.buck_state = Ifx_BUCK_STATE_FAULT) := by
  have A := fun k => (C14_averaged_then_compared L0 { r1 with BUCK1_Iout_get_result := 6 }
    { r2 with BUCK2_Iout_get_result := 6 } s0_zero_current k).2.2.2.1 rfl rfl rfl (by decide)
    (by norm_num [vin_within, L0, s0, s0_zero_current, r1])
    (by norm_num [buck1_temp_within, L0, s0, s0_zero_current, r1])
    (by norm_num [buck1_vout_within, L0, s0, s0_zero_current, r1])
  have B := fun k => (C14_averaged_then_compared L0 { r1 with BUCK1_Iout_get_result := 6 }
    { r2 with BUCK2_Iout_get_result := 6 } s0_zero_current k).2.2.2.2 rfl rfl rfl (by decide)
    (by norm_num [buck2_temp_within, L0, s0, s0_zero_current, r2])
    (by norm_num [buck2_vout_within, L0, s0, s0_zero_current, r2])
  have a13 := (A 13).2.2.2.1 (le_refl _)
  have b13 := (B 13).2.2.2.1 (le_refl _)
  exact ⟨⟨a13.1, a13.2, (A 14).2.2.2.2.2 (le_refl _)⟩,
    ⟨b13.1, b13.2, (B 14).2.2.2.2.2 (le_refl _)⟩⟩

/-- C15: no early return after a fault. In a call of either callback in which
an unconditional check fires, the rest of the body still runs: with the latch
true at entry and the updated output-voltage average outside
`[Vout_MIN, Vout_MAX]` the six-command shutdown sequence is appended exactly
twice; with the latch false at entry and the updated output-voltage average
above the target the latch is set to true although `buck_state` is FAULT. In
every call the log grows by no, one or two copies of the shutdown sequence. -/
theorem C15_no_early_return (L : Limits) (q1 : Buck1Read) (q2 : Buck2Read) (s : State) :
    (((buck1_pre_process_callback L q1 s).vars.vin_avg < L.BUCK1_Vin_MIN ∨
        (buck1_pre_process_callback L q1 s).vars.vin_avg > L.BUCK1_Vin_MAX ∨
        (buck1_pre_process_callback L q1 s).vars.buck1_iout_avg > L.BUCK1_Iout_MAX ∨
        (buck1_pre_process_callback L q1 s).vars.buck1_temp_avg > L.BUCK1_Temp_MAX) →
      (s.vars.buck1_enable_protection = c_true →
        ((buck1_pre_process_callback L q1 s).vars.buck1_vout_avg < L.BUCK1_Vout_MIN ∨
          (buck1_pre_process_callback L q1 s).vars.buck1_vout_avg > L.BUCK1_Vout_MAX) →
        (buck1_pre_process_callback L q1 s).log
          = s.log ++ shutdown_sequence ++ shutdown_sequence ∧
        (buck1_pre_process_callback L q1 s).vars.buck_state = Ifx_BUCK_STATE_FAULT) ∧
      (s.vars.buck1_enable_protection = c_false →
        (buck1_pre_process_callback L q1 s).vars.buck1_vout_avg > q1.BUCK1_targ →
        (buck1_pre_process_callback L q1 s).vars.buck1_enable_protection = c_true ∧
        (buck1_pre_process_callback L q1 s).vars.buck_state = Ifx_BUCK_STATE_FAULT ∧
        (buck1_pre_process_callback L q1 s).log = s.log ++ shutdown_sequence)) ∧
    (((buck2_pre_process_callback L q2 s).vars.buck2_iout_avg > L.BUCK2_Iout_MAX ∨
        (buck2_pre_process_callback L q2 s).vars.buck2_temp_avg > L.BUCK2_Temp_MAX) →
      (s.vars.buck2_enable_protection = c_true →
        ((buck2_pre_process_callback L q2 s).vars.buck2_vout_avg < L.BUCK2_Vout_MIN ∨
          (buck2_pre_process_callback L q2 s).vars.buck2_vout_avg > L.BUCK2_Vout_MAX) →
        (buck2_pre_process_callback L q2 s).log
          = s.log ++ shutdown_sequence ++ shutdown_sequence ∧
        (buck2_pre_process_callback L q2 s).vars.buck_state = Ifx_BUCK_STATE_FAULT) ∧
      (s.vars.buck2_enable_protection = c_false →
        (buck2_pre_process_callback L q2 s).vars.buck2_vout_avg > q2.BUCK2_targ →
        (buck2_pre_process_callback L q2 s).vars.buck2_enable_protection = c_true ∧
        (buck2_pre_process_callback L q2 s).vars.buck_state = Ifx_BUCK_STATE_FAULT ∧
        (buck2_pre_process_callback L q2 s).log = s.log ++ shutdown_sequence)) ∧
    ((buck1_pre_process_callback L q1 s).log = s.log ∨
      (buck1_pre_process_callback L q1 s).log = s.log ++ shutdown_sequence ∨
      (buck1_pre_process_callback L q1 s).log
        = s.log ++ shutdown_sequence ++ shutdown_sequence) ∧
    ((buck2_pre_process_callback L q2 s).log = s.log ∨
      (buck2_pre_process_callback L q2 s).log = s.log ++ shutdown_sequence ∨
      (buck2_pre_process_callback L q2 s).log
        = s.log ++ shutdown_sequence ++ shutdown_sequence) := by
  have hne : c_false ≠ c_true := by decide
  obtain ⟨e1, e2⟩ := buck1_callback_effect L q1 s
  obtain ⟨f1, f2⟩ := buck2_callback_effect L q2 s
  refine ⟨fun hR => ⟨fun ha hv => ?_, fun ha hv => ?_⟩,
    fun hR => ⟨fun ha hv => ?_, fun ha hv => ?_⟩, ?_, ?_⟩
  · constructor
    · rw [e2, if_pos hR, if_pos ⟨ha, hv⟩]
    · rw [e1, if_pos (Or.inl hR)]
  · have hl : s.vars.buck1_enable_protection ≠ c_true := by rw [ha]; exact hne
    have hV : ¬ (s.vars.buck1_enable_protection = c_true ∧
        ((buck1_pre_process_callback L q1 s).vars.buck1_vout_avg < L.BUCK1_Vout_MIN ∨
          (buck1_pre_process_callback L q1 s).vars.buck1_vout_avg > L.BUCK1_Vout_MAX)) :=
      fun h => hl h.1
    refine ⟨?_, ?_, ?_⟩
    · rw [(buck1_callback_avgs L q1 s).1] at hv
      rw [(buck1_callback_latches L q1 s).1, if_pos ⟨hl, hv⟩]
    · rw [e1, if_pos (Or.inl hR)]
    · rw [e2, if_pos hR, if_neg hV, List.append_nil]
  · constructor
    · rw [f2, if_pos hR, if_pos ⟨ha, hv⟩]
    · rw [f1, if_pos (Or.inl hR)]
  · have hl : s.vars.buck2_enable_protection ≠ c_true := by rw [ha]; exact hne
    have hV : ¬ (s.vars.buck2_enable_protection = c_true ∧
        ((buck2_pre_process_callback L q2 s).vars.buck2_vout_avg < L.BUCK2_Vout_MIN ∨
          (buck2_pre_process_callback L q2 s).vars.buck2_vout_avg > L.BUCK2_Vout_MAX)) :=
      fun h => hl h.1
    refine ⟨?_, ?_, ?_⟩
    · rw [(buck2_callback_avgs L q2 s).1] at hv
      rw [(buck2_callback_latches L q2 s).1, if_pos ⟨hl, hv⟩]
    · rw [f1, if_pos (Or.inl hR)]
    · rw [f2, if_pos hR, if_neg hV, List.append_nil]
  · rw [e2]
    split_ifs <;> simp
  · rw [f2]
    split_ifs <;> simp

/-- C15 at concrete inputs: from `s0_armed` a buck1 call reading a current of
41 and an output voltage of 400 (averages 6 > 5 and 225 > 210) appends the
shutdown sequence twice; from `s0` the same readings set the buck1 latch and
FAULT in one call. The same on buck2. -/
theorem C15_no_early_return_witness :
    ((buck1_pre_process_callback L0
        { r1 with BUCK1_Iout_get_result := 41, BUCK1_Vout_get_result := 400 } s0_armed).log
        = [] ++ shutdown_sequence ++ shutdown_sequence ∧
      (buck1_pre_process_callback L0
        { r1 with BUCK1_Iout_get_result := 41, BUCK1_Vout_get_result := 400 } s0
        ).vars.buck1_enable_protection = c_true ∧
      (buck1_pre_process_callback L0
        { r1 with BUCK1_Iout_get_result := 41, BUCK1_Vout_get_result := 400 } s0
        ).vars.buck_state = Ifx_BUCK_STATE_FAULT) ∧
    ((buck2_pre_process_callback L0
        { r2 with BUCK2_Iout_get_result := 41, BUCK2_Vout_get_result := 400 } s0_armed).log
        = [] ++ shutdown_sequence ++ shutdown_sequence ∧
      (buck2_pre_process_callback L0
        { r2 with BUCK2_Iout_get_result := 41, BUCK2_Vout_get_result := 400 } s0
        ).vars.buck2_enable_protection = c_true ∧
      (buck2_pre_process_callback L0
        { r2 with BUCK2_Iout_get_result := 41, BUCK2_Vout_get_result := 400 } s0
        ).vars.buck_state = Ifx_BUCK_STATE_FAULT) := by
  have A := fun s => (C15_no_early_return L0
    { r1 with BUCK1_Iout_get_result := 41, BUCK1_Vout_get_result := 400 }
    { r2 with BUCK2_Iout_get_result := 41, BUCK2_Vout_get_result := 400 } s).1
  have B := fun s => (C15_no_early_return L0
    { r1 with BUCK1_Iout_get_result := 41, BUCK1_Vout_get_result := 400 }
    { r2 with BUCK2_Iout_get_result := 41, BUCK2_Vout_get_result := 400 } s).2.1
  have hA1 := A s0_armed
  have hA2 := A s0
  have hB1 := B s0_armed
  have hB2 := B s0
  simp only [buck1_callback_avgs] at hA1 hA2
  simp only [buck2_callback_avgs] at hB1 hB2
  have iA1 := (hA1 (by norm_num [moving_average, AVERAGING_SAMPLES, L0, s0, s0_armed, r1])).1
    rfl (by norm_num [moving_average, AVERAGING_SAMPLES, L0, s0, s0_armed, r1])
  have iA2 := (hA2 (by norm_num [moving_average, AVERAGING_SAMPLES, L0, s0, r1])).2
    rfl (by norm_num [moving_average, AVERAGING_SAMPLES, L0, s0, r1])
  have iB1 := (hB1 (by norm_num [moving_average, AVERAGING_SAMPLES, L0, s0, s0_armed, r2])).1
    rfl (by norm_num [moving_average, AVERAGING_SAMPLES, L0, s0, s0_armed, r2])
  have iB2 := (hB2 (by norm_num [moving_average, AVERAGING_SAMPLES, L0, s0, r2])).2
    rfl (by norm_num [moving_average, AVERAGING_SAMPLES, L0, s0, r2])
  exact ⟨⟨iA1.1, iA2.1, iA2.2.1⟩, ⟨iB1.1, iB2.1, iB2.2.1⟩⟩

/-- C16: the filter never overshoots. The updated value
`avg - (avg - x) / 8` lies between `min avg x` and `max avg x`; so for any
limit `M`, an average and a raw sample both at most `M` (at least `M`) give an
updated average at most `M` (at least `M`); and a call of either callback
whose averages at entry and raw samples are all within their limits leaves
`buck_state` unchanged and issues no command. -/
theorem C16_no_overshoot (L : Limits) (q1 : Buck1Read) (q2 : Buck2Read) (s : State)
    (avg x M : ℚ) :
    moving_average avg x = avg - (avg - x) / 8 ∧
    (min avg x ≤ moving_average avg x ∧ moving_average avg x ≤ max avg x) ∧
    (avg ≤ M → x ≤ M → moving_average avg x ≤ M) ∧
    (M ≤ avg → M ≤ x → M ≤ moving_average avg x) ∧
    (vin_within L q1 s → buck1_iout_within L q1 s → buck1_temp_within L q1 s →
      buck1_vout_within L q1 s →
      (buck1_pre_process_callback L q1 s).vars.buck_state = s.vars.buck_state ∧
      (buck1_pre_process_callback L q1 s).log = s.log) ∧
    (buck2_iout_within L q2 s → buck2_temp_within L q2 s → buck2_vout_within L q2 s →
      (buck2_pre_process_callback L q2 s).vars.buck_state = s.vars.buck_state ∧
      (buck2_pre_process_callback L q2 s).log = s.log) := by
  refine ⟨moving_average_eq avg x,
    ⟨le_moving_average _ _ _ (min_le_left _ _) (min_le_right _ _),
      moving_average_le _ _ _ (le_max_left _ _) (le_max_right _ _)⟩,
    moving_average_le avg x M, le_moving_average avg x M, ?_, ?_⟩
  · intro hvin hi ht hv
    apply buck1_callback_quiet
    · rintro (h | h | h | h)
      · exact absurd h (not_lt.mpr (le_moving_average _ _ _ hvin.1.1 hvin.2.1))
      · exact absurd h (not_lt.mpr (moving_average_le _ _ _ hvin.1.2 hvin.2.2))
      · exact absurd h (not_lt.mpr (moving_average_le _ _ _ hi.1 hi.2))
      · exact absurd h (not_lt.mpr (moving_average_le _ _ _ ht.1 ht.2))
    · rintro ⟨_, h | h⟩
      · exact absurd h (not_lt.mpr (le_moving_average _ _ _ hv.1.1 hv.2.1))
      · exact absurd h (not_lt.mpr (moving_average_le _ _ _ hv.1.2 hv.2.2))
  · intro hi ht hv
    apply buck2_callback_quiet
    · rintro (h | h)
      · exact absurd h (not_lt.mpr (moving_average_le _ _ _ hi.1 hi.2))
      · exact absurd h (not_lt.mpr (moving_average_le _ _ _ ht.1 ht.2))
    · rintro ⟨_, h | h⟩
      · exact absurd h (not_lt.mpr (le_moving_average _ _ _ hv.1.1 hv.2.1))
      · exact absurd h (not_lt.mpr (moving_average_le _ _ _ hv.1.2 hv.2.2))

/-- C16 at concrete inputs: an average of 3 and a sample of 5 give an update
in `[3, 5]`; and from the nominal state `s0_armed` with the nominal readings
`r1` and `r2` under `L0`, both callbacks leave RUN and the empty log in place. -/
theorem C16_no_overshoot_witness :
    (moving_average 3 5 ≤ 5 ∧ (3 : ℚ) ≤ moving_average 3 5) ∧
    ((buck1_pre_process_callback L0 r1 s0_armed).vars.buck_state = Ifx_BUCK_STATE_RUN ∧
      (buck1_pre_process_callback L0 r1 s0_armed).log = []) ∧
    ((buck2_pre_process_callback L0 r2 s0_armed).vars.buck_state = Ifx_BUCK_STATE_RUN ∧
      (buck2_pre_process_callback L0 r2 s0_armed).log = []) :=
  ⟨⟨(C16_no_overshoot L0 r1 r2 s0_armed 3 5 5).2.2.1 (by norm_num) (by norm_num),
      (C16_no_overshoot L0 r1 r2 s0_armed 3 5 3).2.2.2.1 (by norm_num) (by norm_num)⟩,
    (C16_no_overshoot L0 r1 r2 s0_armed 0 0 0).2.2.2.2.1
      (by norm_num [vin_within, L0, s0, s0_armed, r1])
      (by norm_num [buck1_iout_within, L0, s0, s0_armed, r1])
      (by norm_num [buck1_temp_within, L0, s0, s0_armed, r1])
      (by norm_num [buck1_vout_within, L0, s0, s0_armed, r1]),
    (C16_no_overshoot L0 r1 r2 s0_armed 0 0 0).2.2.2.2.2
      (by norm_num [buck2_iout_within, L0, s0, s0_armed, r2])
      (by norm_num [buck2_temp_within, L0, s0, s0_armed, r2])
      (by norm_num [buck2_vout_within, L0, s0, s0_armed, r2])⟩

/-- C17: the input-voltage lower bound has no arming latch. For every
`BUCK1_Vin_MIN > 0` and every raw input voltage `x < 8 * BUCK1_Vin_MIN`, a call
of `buck1_pre_process_callback` from `vin_avg = 0` leaves `vin_avg = x / 8`,
which is below `BUCK1_Vin_MIN`, and sets `buck_state` to FAULT in that call,
whatever the other readings and wherever `x` itself lies. -/
theorem C17_vin_min_no_latch (L : Limits) (q : Buck1Read) (s : State)
    (_hmin : 0 < L.BUCK1_Vin_MIN) (h0 : s.vars.vin_avg = 0)
    (hx : q.BUCK1_Vin_get_result < 8 * L.BUCK1_Vin_MIN) :
    (buck1_pre_process_callback L q s).vars.vin_avg = q.BUCK1_Vin_get_result / 8 ∧
    (buck1_pre_process_callback L q s).vars.vin_avg < L.BUCK1_Vin_MIN ∧
    (buck1_pre_process_callback L q s).vars.buck_state = Ifx_BUCK_STATE_FAULT := by
  have hv : (buck1_pre_process_callback L q s).vars.vin_avg = q.BUCK1_Vin_get_result / 8 := by
    rw [(buck1_callback_avgs L q s).2.2.2, moving_average_eq, h0]
    ring
  have hlt : (buck1_pre_process_callback L q s).vars.vin_avg < L.BUCK1_Vin_MIN := by
    rw [hv]
    linarith
  refine ⟨hv, hlt, ?_⟩
  rw [(buck1_callback_effect L q s).1, if_pos (Or.inl (Or.inl hlt))]

/-- C17 at concrete inputs: under `L0` (input voltage limits 1500 and 2300),
from `s0` with `vin_avg` put at 0, the nominal readings `r1`, whose input
voltage 1906 is inside the limits, set FAULT on the first call. -/
theorem C17_vin_min_no_latch_witness :
    (L0.BUCK1_Vin_MIN ≤ r1.BUCK1_Vin_get_result ∧
      r1.BUCK1_Vin_get_result ≤ L0.BUCK1_Vin_MAX) ∧
    (buck1_pre_process_callback L0 r1
      { s0 with vars := { s0.vars with vin_avg := 0 } }).vars.buck_state
      = Ifx_BUCK_STATE_FAULT :=
  ⟨by norm_num [L0, r1],
    (C17_vin_min_no_latch L0 r1 { s0 with vars := { s0.vars with vin_avg := 0 } }
      (by norm_num [L0]) rfl (by norm_num [L0, r1])).2.2⟩

end BuckProtection
